import Mathlib

/-!
Verification development for the eval2otel provider-normalization and
content-privacy pipeline (TypeScript sources under `src/`).

Modelling conventions, applied throughout:
* JavaScript numbers are modelled as `ℚ`.  Every comparison the code performs
  on the values in scope (`>= 1.0`, `<= 0`, division of a 32-bit integer by
  `2^32`, subtraction of timestamps) is exact in IEEE-754 doubles, so the
  rational model is faithful for those operations; `NaN` is not modelled.
* JavaScript's 32-bit integer coercions (`<< 5`, `|= 0`, `>>> 0`) are modelled
  by arithmetic modulo `2^32` on `Nat`, which agrees with the source value of
  `hash >>> 0` at every step (the intermediate double-precision sums stay far
  below `2^53`, hence are exact).
* Untyped JavaScript values (the `any`-typed request/response payloads that
  `detectProvider` inspects) are modelled by the inductive type `JsVal`;
  optional-chaining `a?.b` is modelled by `JsVal.get`, which returns
  `JsVal.jsUndefined` on every non-object, and JS truthiness by `JsVal.truthy`.
* Functions that can throw (`JSON.parse`, user-supplied redaction hooks,
  `zod`'s `parse`) return `Except String _`.
-/

/-- A JavaScript runtime value, as far as the untyped payload-sniffing code
observes it.  `NaN` and built-in object properties (e.g. `length`) are not
modelled; none of the inspected fields rely on them. -/
inductive JsVal where
  | jsUndefined
  | jnull
  | jbool (b : Bool)
  | jnum (q : ℚ)
  | jstr (s : String)
  | jarr (elems : List JsVal)
  | jobj (fields : List (String × JsVal))

/-- Property access `v?.k`: `undefined` on every non-object receiver, first
binding of `k` otherwise (JS object keys are unique). -/
def JsVal.get (v : JsVal) (k : String) : JsVal :=
  match v with
  | .jobj fields =>
    match fields.lookup k with
    | some x => x
    | none => .jsUndefined
  | _ => .jsUndefined

/-- Index access `v?.[i]`: array element, or the stringified-index property of
a plain object (JS coerces numeric keys to strings), `undefined` otherwise. -/
def JsVal.idx (v : JsVal) (i : Nat) : JsVal :=
  match v with
  | .jarr xs => xs.getD i .jsUndefined
  | .jobj _ => v.get (toString i)
  | _ => .jsUndefined

/-- JavaScript truthiness (without `NaN`). -/
def JsVal.truthy : JsVal → Bool
  | .jsUndefined => false
  | .jnull => false
  | .jbool b => b
  | .jnum q => decide (q ≠ 0)
  | .jstr s => decide (s ≠ "")
  | .jarr _ => true
  | .jobj _ => true

/-- The `Array.isArray` test. -/
def JsVal.isArray : JsVal → Bool
  | .jarr _ => true
  | _ => false

/-- The `typeof v === 'string'` test. -/
def JsVal.isStr : JsVal → Bool
  | .jstr _ => true
  | _ => false

/-- Strict string equality `v === s`. -/
def JsVal.eqStr (v : JsVal) (s : String) : Bool :=
  match v with
  | .jstr t => decide (t = s)
  | _ => false

/-- The provider tags returned by `detectProvider` (`src/helpers.ts`). -/
inductive ProviderMode where
  | openaiChat
  | openaiCompatible
  | anthropic
  | cohere
  | bedrock
  | vertex
  | ollama
  | unknown
deriving DecidableEq, Repr

/-- The string value of each tag, as in the `ProviderMode` union type. -/
def ProviderMode.tag : ProviderMode → String
  | .openaiChat => "openai-chat"
  | .openaiCompatible => "openai-compatible"
  | .anthropic => "anthropic"
  | .cohere => "cohere"
  | .bedrock => "bedrock"
  | .vertex => "vertex"
  | .ollama => "ollama"
  | .unknown => "unknown"

/-- Heuristic 1 (`src/helpers.ts:23`): native chat-completion discriminator or
provider fingerprint field. -/
def isOpenAIChatShape (response : JsVal) : Bool :=
  (response.get "object").eqStr "chat.completion" || (response.get "system_fingerprint").truthy

/-- Heuristic 2 (`src/helpers.ts:24`): choices carry tool calls whose function
arguments are a serialized string. -/
def isOpenAICompatibleShape (response : JsVal) : Bool :=
  (response.get "choices").isArray
    && ((((response.get "choices").idx 0).get "message").get "tool_calls").truthy
    && (((((((response.get "choices").idx 0).get "message").get "tool_calls").idx 0).get
          "function").get "arguments").isStr

/-- Heuristic 3 (`src/helpers.ts:25`): a `modelId` field on either side. -/
def isBedrockShape (request response : JsVal) : Bool :=
  (response.get "modelId").truthy || (request.get "modelId").truthy

/-- Heuristic 4 (`src/helpers.ts:26`): a `candidates` array. -/
def isVertexShape (response : JsVal) : Bool :=
  (response.get "candidates").isArray

/-- Heuristic 5 (`src/helpers.ts:27`): typed content parts including a
`tool_use` part. -/
def isAnthropicShape (response : JsVal) : Bool :=
  match response.get "content" with
  | .jarr parts => parts.any (fun c => (c.get "type").eqStr "tool_use")
  | _ => false

/-- Heuristic 6 (`src/helpers.ts:28`): plain `text` string plus billing-units
object. -/
def isCohereShape (response : JsVal) : Bool :=
  (response.get "text").isStr && ((response.get "meta").get "billed_units").truthy

/-- Heuristic 7 (`src/helpers.ts:29`): a message object plus Ollama's
duration/eval-count fields. -/
def isOllamaShape (response : JsVal) : Bool :=
  ((response.get "message").get "role").truthy
    && ((response.get "eval_duration").truthy || (response.get "load_duration").truthy
        || (response.get "prompt_eval_count").truthy)

/-- `detectProvider` (`src/helpers.ts:22-31`): ordered heuristics, first match
wins, `unknown` fallback. -/
def detectProvider (request response : JsVal) : ProviderMode :=
  if isOpenAIChatShape response then .openaiChat
  else if isOpenAICompatibleShape response then .openaiCompatible
  else if isBedrockShape request response then .bedrock
  else if isVertexShape response then .vertex
  else if isAnthropicShape response then .anthropic
  else if isCohereShape response then .cohere
  else if isOllamaShape response then .ollama
  else .unknown

/-- The spec's fixed priority list of heuristics (spec §4.1, steps 1-7), as an
ordered association list.  This is written from the specification's words, to
be compared with `detectProvider` (which is written from the source). -/
def providerHeuristics : List (ProviderMode × (JsVal → JsVal → Bool)) :=
  [ (.openaiChat, fun _ res => isOpenAIChatShape res)
  , (.openaiCompatible, fun _ res => isOpenAICompatibleShape res)
  , (.bedrock, fun req res => isBedrockShape req res)
  , (.vertex, fun _ res => isVertexShape res)
  , (.anthropic, fun _ res => isAnthropicShape res)
  , (.cohere, fun _ res => isCohereShape res)
  , (.ollama, fun _ res => isOllamaShape res) ]

/-- First-match-wins evaluation of the spec's priority list, with `unknown` as
the total fallback (spec §4.1, step 8). -/
def detectSpecOrdered (request response : JsVal) : ProviderMode :=
  (providerHeuristics.findSome? fun p =>
    if p.2 request response then some p.1 else none).getD .unknown

/-- All eight provider tags. -/
def allProviderModes : List ProviderMode :=
  [.openaiChat, .openaiCompatible, .anthropic, .cohere, .bedrock, .vertex, .ollama, .unknown]

/-! ## JSON serialization (models the platform's `JSON.stringify`)

The exact text for fractional numbers differs from JavaScript's decimal
rendering (`ℚ` prints `3/2`); no claim compares serialized text against
literals, only equality and one-way digests of it.  String escaping covers
quote and backslash. -/

/-- Escape a string body for JSON output. -/
def jsonEscape (s : String) : String :=
  s.foldl (fun acc c =>
    if c = Char.ofNat 34 then acc ++ "\\" ++ String.singleton (Char.ofNat 34)
    else if c = Char.ofNat 92 then acc ++ "\\\\"
    else acc ++ String.singleton c) ""

/-- Opening brace as a string. -/
def braceL : String := String.singleton (Char.ofNat 123)

/-- Closing brace as a string. -/
def braceR : String := String.singleton (Char.ofNat 125)

/-- The literal two-character string of an empty JSON object, used by the
source as the fallback for redacted tool arguments. -/
def braces : String := braceL ++ braceR

mutual

/-- Model of `JSON.stringify` on a JavaScript value.  `undefined` occurring
inside an array serializes as `null` and is dropped from objects, as in JS. -/
def jsonStringify : JsVal → String
  | .jsUndefined => "null"
  | .jnull => "null"
  | .jbool b => if b then "true" else "false"
  | .jnum q => toString q
  | .jstr s => "\"" ++ jsonEscape s ++ "\""
  | .jarr xs => "[" ++ jsonStringifyArr xs ++ "]"
  | .jobj fields => braceL ++ jsonStringifyObj fields ++ braceR

/-- Serialize array elements, comma separated. -/
def jsonStringifyArr : List JsVal → String
  | [] => ""
  | [x] => jsonStringify x
  | x :: y :: rest => jsonStringify x ++ "," ++ jsonStringifyArr (y :: rest)

/-- Serialize object fields, comma separated, dropping `undefined` values. -/
def jsonStringifyObj : List (String × JsVal) → String
  | [] => ""
  | (k, v) :: rest =>
    match v with
    | .jsUndefined => jsonStringifyObj rest
    | _ =>
      let entry := "\"" ++ jsonEscape k ++ "\":" ++ jsonStringify v
      match rest with
      | [] => entry
      | _ :: _ =>
        let tail := jsonStringifyObj rest
        if tail = "" then entry else entry ++ "," ++ tail

end

/-! ## Canonical record model (`src/types.ts`)

The `EvalResult` structure mirrors the fields of the zod schema
`EvalResultSchema` that the claims touch.  The optional `tool`, `agent`,
`workflow` and `rag` sub-objects are not modelled (no claim depends on them;
records with those fields absent are fully covered).  Structured
(`Record<string, unknown>`) values are modelled as `JsVal`. -/

/-- A message/choice content value: `string | Record<string, unknown>`. -/
inductive ContentV where
  | text (s : String)
  | struct (j : JsVal)

/-- Tool-call function arguments as the converter observes them at runtime
(`typeof arguments === 'string'` branch in `src/converter.ts:498`). The
`arguments` field is optional in the schema; the claims all concern present
arguments, so presence is built in here. -/
inductive ArgsVal where
  | argStr (s : String)
  | argObj (j : JsVal)

/-- The `function` part of a tool call. -/
structure ToolCallFn where
  name : String
  argumentsVal : ArgsVal

/-- A tool call attached to a message. -/
structure ToolCall where
  id : String
  type : String
  function : ToolCallFn

/-- A conversation or choice message. -/
structure Message where
  role : String
  content : Option ContentV
  toolCallId : Option String
  toolCalls : Option (List ToolCall)

/-- The conversation sub-record. -/
structure Conversation where
  id : String
  messages : List Message

/-- One response choice. -/
structure Choice where
  index : ℚ
  finishReason : String
  message : Message

/-- The response sub-record. -/
structure ResponseC where
  id : Option String
  model : Option String
  finishReasons : Option (List String)
  choices : Option (List Choice)

/-- The request sub-record (validated form: `model` is required). -/
structure RequestC where
  model : String
  temperature : Option ℚ
  maxTokens : Option ℚ
  topP : Option ℚ
  topK : Option ℚ
  frequencyPenalty : Option ℚ
  presencePenalty : Option ℚ
  stopSequences : Option (List String)
  seed : Option ℚ
  choiceCount : Option ℚ

/-- Token usage; all three fields optional. -/
structure UsageC where
  inputTokens : Option ℚ
  outputTokens : Option ℚ
  totalTokens : Option ℚ

/-- Performance timings in seconds (validated form: `duration` required). -/
structure PerformanceC where
  duration : ℚ
  timeToFirstToken : Option ℚ
  timePerOutputToken : Option ℚ

/-- Error information. -/
structure ErrorC where
  type : String
  message : String

/-- Tool execution data (`tool` sub-record of the schema). -/
structure ToolData where
  name : String
  description : Option String
  callId : Option String
  result : Option JsVal

/-- The validated canonical record (output of `EvalResultSchema.parse`). -/
structure EvalResult where
  id : String
  timestamp : ℚ
  model : String
  system : Option String
  operation : String
  request : RequestC
  response : ResponseC
  usage : UsageC
  performance : PerformanceC
  error : Option ErrorC
  conversation : Option Conversation
  tool : Option ToolData

/-! ## Configuration (`OtelConfig`, `src/types.ts:143-182`)

A redaction hook is user code and may throw: its result is
`Except String (Option String)` — `.error` models a thrown exception,
`.ok none` models returning `null`, `.ok (some s)` returning a string. -/

/-- Result type of a user-supplied redaction hook invocation. -/
abbrev HookResult := Except String (Option String)

/-- The subset of `OtelConfig` the converter and metrics claims read.
`captureContent` and `markTruncatedContent` are optional booleans in the
source used only for truthiness, modelled as `Bool` (absent ≡ `false`). -/
structure OtelConfig where
  captureContent : Bool
  sampleContentRate : Option ℚ
  contentSampler : Option (EvalResult → Bool)
  emitOperationalMetadata : Option Bool
  contentMaxLength : Option ℚ
  markTruncatedContent : Bool
  redact : Option (String → HookResult)
  redactMessageContent : Option (String → String → HookResult)
  redactToolArguments : Option (String → String → Option String → HookResult)
  maxEventsPerSpan : Option ℚ
  metricAttributeAllowlist : Option (List String)
  maxMetricAttributes : Option ℚ

/-! ## Deterministic content sampling (`shouldCaptureContent`,
`src/converter.ts:119-136`)

The loop `hash = ((hash << 5) + hash) + id.charCodeAt(i); hash |= 0` keeps a
signed 32-bit accumulator whose unsigned view (`hash >>> 0`) evolves as
`u ↦ (33·u + c) mod 2^32`; the double-precision intermediate sums are below
`2^38`, hence exact, so the `Nat` recurrence below reproduces `hash >>> 0`
bit for bit.  Characters are modelled as Unicode scalar values, which agree
with UTF-16 code units on the Basic Multilingual Plane. -/

/-- One step of the multiplicative string hash. -/
def djb2Step (h c : ℕ) : ℕ := (h * 33 + c) % 4294967296

/-- The order-dependent multiplicative hash of a record id (unsigned 32-bit
result, equal to the source's final `hash >>> 0`). -/
def djb2Hash (id : String) : ℕ :=
  id.data.foldl (fun h c => djb2Step h c.toNat) 5381

/-- Normalization of the hash to `[0,1)`: `(hash >>> 0) / 4294967296`. -/
def hashNorm (id : String) : ℚ := (djb2Hash id : ℚ) / 4294967296

/-- `shouldCaptureContent` (`src/converter.ts:119-136`). -/
def shouldCaptureContent (cfg : OtelConfig) (evalResult : EvalResult) : Bool :=
  if !cfg.captureContent then false
  else
    match cfg.contentSampler with
    | some sampler => sampler evalResult
    | none =>
      let sampleRate := cfg.sampleContentRate.getD 1
      if 1 ≤ sampleRate then true
      else if sampleRate ≤ 0 then false
      else decide (hashNorm evalResult.id ≤ sampleRate)

/-! ## Attribute keys (`src/attributes.ts`) -/

/-- Attribute key for plain message content. -/
def ATTR_MESSAGE_CONTENT : String := "gen_ai.message.content"

/-- Attribute key for structured (JSON) message content. -/
def ATTR_MESSAGE_CONTENT_JSON : String := "gen_ai.message.content_json"

/-- Attribute key for the content type label. -/
def ATTR_MESSAGE_CONTENT_TYPE : String := "gen_ai.message.content_type"

/-- Attribute key for the message role. -/
def ATTR_MESSAGE_ROLE : String := "gen_ai.message.role"

/-- Attribute key for the message index. -/
def ATTR_MESSAGE_INDEX : String := "gen_ai.message.index"

/-- Attribute key for the truncation marker. -/
def ATTR_MESSAGE_CONTENT_TRUNCATED : String := "gen_ai.message.content_truncated"

/-- Attribute key for the response choice index. -/
def ATTR_RESPONSE_CHOICE_INDEX : String := "gen_ai.response.choice.index"

/-- Attribute key for the finish reason. -/
def ATTR_RESPONSE_FINISH_REASON : String := "gen_ai.response.finish_reason"

/-- Attribute key for a tool name. -/
def ATTR_TOOL_NAME : String := "gen_ai.tool.name"

/-- Attribute key for a tool call id. -/
def ATTR_TOOL_CALL_ID : String := "gen_ai.tool.call.id"

/-- Attribute key for tool arguments. -/
def ATTR_TOOL_ARGUMENTS : String := "gen_ai.tool.arguments"

/-- Attribute key for the provider name. -/
def ATTR_PROVIDER_NAME : String := "gen_ai.provider.name"

/-- Attribute key for the content fingerprint. -/
def ATTR_CONTENT_SHA256 : String := "evalops.content_sha256"

/-! ## Span events and the converter (`src/converter.ts`) -/

/-- A span-attribute or event-attribute value. -/
inductive AttrVal where
  | s (v : String)
  | n (v : ℚ)
  | b (v : Bool)
deriving DecidableEq, Repr

/-- One span event: name plus attribute map (assembled in insertion order). -/
structure SpanEvent where
  name : String
  attrs : List (String × AttrVal)
deriving DecidableEq, Repr

/-- Spans are identified by a numeric handle; the converter's
`WeakMap<Span, number>` is a per-span counter table keyed by that handle. -/
abbrev SpanId := ℕ

/-- The converter's `eventCounts` table (`src/converter.ts:9`): absent entry
models a span the map has never seen. -/
abbrev Counters := SpanId → Option ℕ

/-- Substring containment, modelling `String.prototype.includes`. -/
def strIncludes (s sub : String) : Bool := decide (2 ≤ (s.splitOn sub).length)

/-- `getOperationSpanName` (`src/converter.ts:98-114`). -/
def getOperationSpanName (operation : String) : String :=
  if operation = "chat" then "gen_ai.chat"
  else if operation = "text_completion" then "gen_ai.chat"
  else if operation = "embeddings" then "gen_ai.embeddings"
  else if operation = "execute_tool" then "gen_ai.execute_tool"
  else if operation = "agent_execution" then "gen_ai.agent"
  else if operation = "workflow_step" then "gen_ai.workflow"
  else "gen_ai.operation"

/-- `getProviderName` (`src/converter.ts:357-367`). -/
def getProviderName (system : Option String) : Option String :=
  match system with
  | none => none
  | some sys =>
    if sys = "" then none
    else
      let s := sys.toLower
      if strIncludes s "azure" then some "azure.openai"
      else if strIncludes s "bedrock" || strIncludes s "aws" then some "aws.bedrock"
      else if strIncludes s "vertex" || strIncludes s "gemini" || strIncludes s "google" then
        some "google.vertex"
      else if strIncludes s "anthropic" || strIncludes s "claude" then some "anthropic"
      else if strIncludes s "openai" then some "openai"
      else some s

/-- The `redact` method (`src/converter.ts:139-142`): general hook or
identity. -/
def redactMethod (cfg : OtelConfig) (content : String) : HookResult :=
  match cfg.redact with
  | some f => f content
  | none => .ok (some content)

/-- The `redactMessageContent` method (`src/converter.ts:145-150`):
role-aware hook, else the general path. -/
def redactMessageContentMethod (cfg : OtelConfig) (content role : String) : HookResult :=
  match cfg.redactMessageContent with
  | some f => f content role
  | none => redactMethod cfg content

/-- The `redactToolArguments` method (`src/converter.ts:153-158`):
function-aware hook, else the general path. -/
def redactToolArgumentsMethod (cfg : OtelConfig) (argsJson functionName : String)
    (callId : Option String) : HookResult :=
  match cfg.redactToolArguments with
  | some f => f argsJson functionName callId
  | none => redactMethod cfg argsJson

/-- `truncateContent` (`src/converter.ts:163-169`); a fractional configured
maximum is truncated toward zero by `String.prototype.slice`. -/
def truncateContent (cfg : OtelConfig) (content : String) : String :=
  match cfg.contentMaxLength with
  | some m => if 0 < m ∧ m < (content.length : ℚ) then content.take m.floor.toNat else content
  | none => content

/-- `hashContent` (`src/converter.ts:171-173`).  Node's `crypto` SHA-256 is
platform code outside this repository; it is modelled as an opaque
deterministic digest of the input (the claims depend only on the fingerprint
being a function of the original value, not on the digest algorithm). -/
def hashContent (content : String) : String :=
  "sha256:" ++ toString content.length ++ ":" ++ toString (djb2Hash content)

/-- `canAddEvent` (`src/converter.ts:175-182`): true and increments the
per-span counter while under the cap; an absent or non-positive cap disables
the guard. -/
def canAddEvent (cfg : OtelConfig) (counters : Counters) (span : SpanId) : Bool × Counters :=
  match cfg.maxEventsPerSpan with
  | none => (true, counters)
  | some cap =>
    if cap ≤ 0 then (true, counters)
    else
      let current := (counters span).getD 0
      if cap ≤ (current : ℚ) then (false, counters)
      else (true, fun s => if s = span then some (current + 1) else counters s)

/-- The shared content-emission block (`src/converter.ts:388-400`, repeated at
`410-421`, `458-469` and `477-488`): attach the (possibly truncated) redacted
value under `valueKey`, the type label, and the truncation marker when
enabled. -/
def contentValueAttrs (cfg : OtelConfig) (valueKey typeLabel : String) (redacted : String) :
    List (String × AttrVal) :=
  match cfg.contentMaxLength with
  | some m =>
    if 0 < m ∧ m < (redacted.length : ℚ) then
      [(valueKey, .s (redacted.take m.floor.toNat)), (ATTR_MESSAGE_CONTENT_TYPE, .s typeLabel)]
        ++ (if cfg.markTruncatedContent then [(ATTR_MESSAGE_CONTENT_TRUNCATED, .b true)] else [])
    else [(valueKey, .s redacted), (ATTR_MESSAGE_CONTENT_TYPE, .s typeLabel)]
  | none => [(valueKey, .s redacted), (ATTR_MESSAGE_CONTENT_TYPE, .s typeLabel)]

/-- Content handling for one message or choice (`src/converter.ts:384-426`,
`453-493`): string content is redacted via the role-aware hook; structured
content is serialized first; a `null` hook result yields a fingerprint-only
attribute set. -/
def messageContentAttrs (cfg : OtelConfig) (content : ContentV) (role : String) :
    Except String (List (String × AttrVal)) := do
  match content with
  | .text original => do
    let redacted ← redactMessageContentMethod cfg original role
    match redacted with
    | some val => pure (contentValueAttrs cfg ATTR_MESSAGE_CONTENT "text" val)
    | none => pure [(ATTR_CONTENT_SHA256, .s (hashContent original))]
  | .struct j => do
    let jsonStr := jsonStringify j
    let redacted ← redactMessageContentMethod cfg jsonStr role
    match redacted with
    | some val => pure (contentValueAttrs cfg ATTR_MESSAGE_CONTENT_JSON "json" val)
    | none => pure [(ATTR_CONTENT_SHA256, .s (hashContent jsonStr))]

/-- Attributes of one conversation-message event (`src/converter.ts:375-430`). -/
def messageEventAttrs (cfg : OtelConfig) (system : Option String) (msg : Message)
    (index : ℕ) : Except String (List (String × AttrVal)) := do
  let base : List (String × AttrVal) :=
    [ ("gen_ai.system", .s (system.getD "unknown"))
    , (ATTR_PROVIDER_NAME, .s ((getProviderName system).getD "unknown"))
    , (ATTR_MESSAGE_ROLE, .s msg.role)
    , (ATTR_MESSAGE_INDEX, .n index) ]
  let contentAttrs ← match msg.content with
    | some c => messageContentAttrs cfg c msg.role
    | none => pure []
  let tcAttrs : List (String × AttrVal) :=
    match msg.toolCallId with
    | some tid => [(ATTR_TOOL_CALL_ID, .s tid)]
    | none => []
  pure (base ++ contentAttrs ++ tcAttrs)

/-- The event name `gen_ai.{role}.message` (`src/converter.ts:376`). -/
def messageEventName (role : String) : String := "gen_ai." ++ role ++ ".message"

/-- The `forEach` loop body of `addConversationEvents`
(`src/converter.ts:375-435`): attributes (and hence redaction hooks) are
computed before the cap guard; the event materializes only when the guard
admits it.  A hook exception aborts the loop, as an uncaught JS exception
aborts `forEach`. -/
def convMessagesLoop (cfg : OtelConfig) (system : Option String) (span : SpanId) :
    List Message → ℕ → List SpanEvent × Counters → Except String (List SpanEvent × Counters)
  | [], _, st => .ok st
  | msg :: rest, index, (events, counters) => do
    let attrs ← messageEventAttrs cfg system msg index
    let (admitted, counters) := canAddEvent cfg counters span
    let events := if admitted then events ++ [⟨messageEventName msg.role, attrs⟩] else events
    convMessagesLoop cfg system span rest (index + 1) (events, counters)

/-- `addConversationEvents` (`src/converter.ts:372-436`). -/
def addConversationEvents (cfg : OtelConfig) (v : EvalResult) (span : SpanId)
    (st : List SpanEvent × Counters) : Except String (List SpanEvent × Counters) :=
  match v.conversation with
  | none => .ok st
  | some conv => convMessagesLoop cfg v.system span conv.messages 0 st

/-- Attributes of one choice event (`src/converter.ts:444-493`). -/
def choiceEventAttrs (cfg : OtelConfig) (system : Option String) (choice : Choice) :
    Except String (List (String × AttrVal)) := do
  let base : List (String × AttrVal) :=
    [ ("gen_ai.system", .s (system.getD "unknown"))
    , (ATTR_PROVIDER_NAME, .s ((getProviderName system).getD "unknown"))
    , (ATTR_RESPONSE_CHOICE_INDEX, .n choice.index)
    , (ATTR_RESPONSE_FINISH_REASON, .s choice.finishReason)
    , (ATTR_MESSAGE_ROLE, .s choice.message.role) ]
  let contentAttrs ← match choice.message.content with
    | some c => messageContentAttrs cfg c choice.message.role
    | none => pure []
  pure (base ++ contentAttrs)

/-- The raw argument string of a tool call (`src/converter.ts:498-500`). -/
def toolCallRawArgs (tc : ToolCall) : String :=
  match tc.function.argumentsVal with
  | .argStr s => s
  | .argObj j => jsonStringify j

/-- The tool-call loop of `addChoiceEvents` (`src/converter.ts:495-517`): the
cap guard runs first; inside it the argument string is redacted, with `'{}'`
substituted for a `null` hook result, then truncated. -/
def toolCallsLoop (cfg : OtelConfig) (system : Option String) (span : SpanId)
    (choiceIndex : ℚ) :
    List ToolCall → List SpanEvent × Counters → Except String (List SpanEvent × Counters)
  | [], st => .ok st
  | tc :: rest, (events, counters) => do
    let rawArgs := toolCallRawArgs tc
    let (admitted, counters) := canAddEvent cfg counters span
    if admitted then do
      let red ← redactToolArgumentsMethod cfg rawArgs tc.function.name (some tc.id)
      let attrs : List (String × AttrVal) :=
        [ ("gen_ai.system", .s (system.getD "unknown"))
        , (ATTR_TOOL_NAME, .s tc.function.name)
        , (ATTR_TOOL_CALL_ID, .s tc.id)
        , (ATTR_RESPONSE_CHOICE_INDEX, .n choiceIndex)
        , (ATTR_TOOL_ARGUMENTS, .s (truncateContent cfg (red.getD braces))) ]
      toolCallsLoop cfg system span choiceIndex rest
        (events ++ [⟨"gen_ai.tool.message", attrs⟩], counters)
    else
      toolCallsLoop cfg system span choiceIndex rest (events, counters)

/-- The per-choice loop of `addChoiceEvents` (`src/converter.ts:444-522`):
choice attributes (content redaction included) are computed first, then tool
events, then the guarded `gen_ai.assistant.message` event. -/
def choicesLoop (cfg : OtelConfig) (system : Option String) (span : SpanId) :
    List Choice → List SpanEvent × Counters → Except String (List SpanEvent × Counters)
  | [], st => .ok st
  | choice :: rest, st => do
    let attrs ← choiceEventAttrs cfg system choice
    let st ← match choice.message.toolCalls with
      | some tcs => toolCallsLoop cfg system span choice.index tcs st
      | none => pure st
    let (admitted, counters) := canAddEvent cfg st.2 span
    let events := if admitted then st.1 ++ [⟨"gen_ai.assistant.message", attrs⟩] else st.1
    choicesLoop cfg system span rest (events, counters)

/-- `addChoiceEvents` (`src/converter.ts:441-523`). -/
def addChoiceEvents (cfg : OtelConfig) (v : EvalResult) (span : SpanId)
    (st : List SpanEvent × Counters) : Except String (List SpanEvent × Counters) :=
  match v.response.choices with
  | none => .ok st
  | some cs => choicesLoop cfg v.system span cs st

/-! ## Schema validation (`EvalResultSchema`, `src/types.ts:5-139`)

`zod`'s `parse` throws a structured `ZodError` on contract violations; that is
modelled by `Except String`.  Raw records carry `Option` where the schema must
check presence; sub-structures whose shape the claims never vary (choices,
messages, error) reuse the typed form, so only the runtime checks the schema
performs on them (enum membership, positivity, non-negativity) appear
explicitly. -/

/-- The request sub-record before validation: `model` may be missing. -/
structure RawRequest where
  model : Option String
  temperature : Option ℚ
  maxTokens : Option ℚ
  topP : Option ℚ
  topK : Option ℚ
  frequencyPenalty : Option ℚ
  presencePenalty : Option ℚ
  stopSequences : Option (List String)
  seed : Option ℚ
  choiceCount : Option ℚ

/-- The performance sub-record before validation: `duration` may be missing. -/
structure RawPerformance where
  duration : Option ℚ
  timeToFirstToken : Option ℚ
  timePerOutputToken : Option ℚ

/-- An incoming evaluation record before validation. -/
structure RawEvalResult where
  id : Option String
  timestamp : Option ℚ
  model : Option String
  system : Option String
  operation : Option String
  request : Option RawRequest
  response : Option ResponseC
  usage : Option UsageC
  performance : Option RawPerformance
  error : Option ErrorC
  conversation : Option Conversation
  tool : Option ToolData

/-- The `operation` enum of the schema (`src/types.ts:10`). -/
def operationEnum : List String :=
  ["chat", "text_completion", "embeddings", "execute_tool", "agent_execution", "workflow_step"]

/-- The message `role` enum of the schema (`src/types.ts:73`). -/
def roleEnum : List String := ["system", "user", "assistant", "tool"]

/-- Reject a missing required field with a structured issue. -/
def requireSome {α : Type} (label : String) (o : Option α) : Except String α :=
  match o with
  | some a => .ok a
  | none => .error (label ++ ": Required")

/-- Check `z.number().positive()` on an optional field. -/
def requirePosOpt (label : String) (o : Option ℚ) : Except String Unit :=
  match o with
  | none => .ok ()
  | some q => if 0 < q then .ok () else .error (label ++ ": Number must be greater than 0")

/-- Check `z.number().nonnegative()` on an optional field. -/
def requireNonnegOpt (label : String) (o : Option ℚ) : Except String Unit :=
  match o with
  | none => .ok ()
  | some q =>
    if 0 ≤ q then .ok ()
    else .error (label ++ ": Number must be greater than or equal to 0")

/-- `EvalResultSchema.parse` (`src/types.ts:5-139`, invoked at
`src/converter.ts:21`): presence of required fields, enum membership of
`operation` and message roles, positivity of `request.maxTokens`,
`request.choiceCount`, `performance.duration` (strictly positive per
`z.number().positive()`), `performance.timeToFirstToken`,
`performance.timePerOutputToken`, and non-negativity of the usage counters. -/
def parseEvalResult (raw : RawEvalResult) : Except String EvalResult := do
  let id ← requireSome "id" raw.id
  let timestamp ← requireSome "timestamp" raw.timestamp
  let model ← requireSome "model" raw.model
  let operation ← requireSome "operation" raw.operation
  let _ ← (if operation ∈ operationEnum then .ok () else
    .error "operation: Invalid enum value" : Except String Unit)
  let reqRaw ← requireSome "request" raw.request
  let reqModel ← requireSome "request.model" reqRaw.model
  let _ ← requirePosOpt "request.maxTokens" reqRaw.maxTokens
  let _ ← requirePosOpt "request.choiceCount" reqRaw.choiceCount
  let response ← requireSome "response" raw.response
  let usage ← requireSome "usage" raw.usage
  let _ ← requireNonnegOpt "usage.inputTokens" usage.inputTokens
  let _ ← requireNonnegOpt "usage.outputTokens" usage.outputTokens
  let _ ← requireNonnegOpt "usage.totalTokens" usage.totalTokens
  let perf ← requireSome "performance" raw.performance
  let duration ← requireSome "performance.duration" perf.duration
  let _ ← (if 0 < duration then .ok () else
    .error "performance.duration: Number must be greater than 0" : Except String Unit)
  let _ ← requirePosOpt "performance.timeToFirstToken" perf.timeToFirstToken
  let _ ← requirePosOpt "performance.timePerOutputToken" perf.timePerOutputToken
  let _ ← (match raw.conversation with
    | none => .ok ()
    | some conv =>
      if conv.messages.all (fun m => m.role ∈ roleEnum) then .ok ()
      else .error "conversation.messages.role: Invalid enum value" : Except String Unit)
  pure
    { id := id
    , timestamp := timestamp
    , model := model
    , system := raw.system
    , operation := operation
    , request :=
      { model := reqModel
      , temperature := reqRaw.temperature
      , maxTokens := reqRaw.maxTokens
      , topP := reqRaw.topP
      , topK := reqRaw.topK
      , frequencyPenalty := reqRaw.frequencyPenalty
      , presencePenalty := reqRaw.presencePenalty
      , stopSequences := reqRaw.stopSequences
      , seed := reqRaw.seed
      , choiceCount := reqRaw.choiceCount }
    , response := response
    , usage := usage
    , performance :=
      { duration := duration
      , timeToFirstToken := perf.timeToFirstToken
      , timePerOutputToken := perf.timePerOutputToken }
    , error := raw.error
    , conversation := raw.conversation
    , tool := raw.tool }

/-- The observable output of `convertEvalResult` for one record: span name,
status, and the events added to the record's span.  Span attributes and the
tracer hand-off are the host's side of the interface and carry no policy
logic bearing on the claims. -/
structure ConverterOutput where
  spanName : String
  statusOk : Bool
  events : List SpanEvent

/-- The event-emitting tail of `convertEvalResult` (`src/converter.ts:68-91`):
one capture decision per record, operational-metadata gate, then conversation
and choice events against the record's span. -/
def emitRecordEvents (cfg : OtelConfig) (validated : EvalResult) (span : SpanId)
    (counters : Counters) : Except String (List SpanEvent × Counters) := do
  let captureContent := shouldCaptureContent cfg validated
  let emitOps := cfg.emitOperationalMetadata ≠ some false
  let st0 : List SpanEvent × Counters := ([], counters)
  let st1 ← if validated.conversation.isSome && captureContent && emitOps then
      addConversationEvents cfg validated span st0
    else pure st0
  let st2 ← if validated.response.choices.isSome && captureContent && emitOps then
      addChoiceEvents cfg validated span st1
    else pure st1
  pure st2

/-- `convertEvalResult` (`src/converter.ts:19-93`): validate first — before
any span is created — then emit the span and its events.  A validation
failure or a hook exception surfaces as `.error` with no output. -/
def convertEvalResult (cfg : OtelConfig) (span : SpanId) (counters : Counters)
    (evalResult : RawEvalResult) : Except String (ConverterOutput × Counters) := do
  let validated ← parseEvalResult evalResult
  let spanName := getOperationSpanName validated.operation
  let st ← emitRecordEvents cfg validated span counters
  pure ({ spanName := spanName, statusOk := validated.error.isNone, events := st.1 }, st.2)

/-! ## Metric attribute guard (`filterMetricAttributes`, `src/metrics.ts:356-371`)

Metric attribute maps are modelled as association lists in insertion order
with unique keys (JS object semantics).  The source sorts surviving entries
with `a.localeCompare(b)`; the default collation coincides with code-point
lexicographic order on the lowercase ASCII dot/underscore keys this library
emits, and is modelled as such. -/

/-- A metric attribute value (`string | number`). -/
inductive MetricVal where
  | s (v : String)
  | n (v : ℚ)
deriving DecidableEq, Repr

/-- Code-point lexicographic comparison of character lists. -/
def charListLe : List Char → List Char → Bool
  | [], _ => true
  | _ :: _, [] => false
  | a :: as, b :: bs =>
    if a.toNat < b.toNat then true
    else if b.toNat < a.toNat then false
    else charListLe as bs

/-- Code-point lexicographic string comparison (the model of
`localeCompare`-based sorting). -/
def strLe (a b : String) : Bool := charListLe a.data b.data

/-- The key ordering used on attribute entries. -/
def entryLe (a b : String × MetricVal) : Prop := strLe a.1 b.1 = true

instance : DecidableRel entryLe := fun a b => by
  unfold entryLe; infer_instance

/-- `filterMetricAttributes` (`src/metrics.ts:356-371`): drop keys outside the
non-empty allowlist, then — when a positive cap is configured — sort the
surviving entries by key and keep the first `cap`. -/
def filterMetricAttributes (cfg : OtelConfig) (attrs : List (String × MetricVal)) :
    List (String × MetricVal) :=
  let result :=
    match cfg.metricAttributeAllowlist with
    | some allow => if 0 < allow.length then attrs.filter (fun kv => allow.contains kv.1) else attrs
    | none => attrs
  match cfg.maxMetricAttributes with
  | some cap =>
    if 0 < cap then (List.insertionSort entryLe result).take cap.floor.toNat else result
  | none => result

/-! ## JSON parsing (models the platform's `JSON.parse`)

A fuel-bounded recursive-descent parser over the character list; a failed
parse models the `SyntaxError` that `JSON.parse` throws.  Escapes cover the
backslash-quoted forms the claims exercise. -/

/-- Skip JSON whitespace. -/
def skipWs : List Char → List Char
  | c :: rest =>
    if c = ' ' ∨ c = Char.ofNat 10 ∨ c = Char.ofNat 9 ∨ c = Char.ofNat 13 then skipWs rest
    else c :: rest
  | [] => []

/-- Parse a quoted-string body after the opening quote. -/
def parseStringBody : List Char → String → Option (String × List Char)
  | [], _ => none
  | c :: rest, acc =>
    if c = Char.ofNat 34 then some (acc, rest)
    else if c = Char.ofNat 92 then
      match rest with
      | [] => none
      | e :: rest2 =>
        parseStringBody rest2
          (acc ++ String.singleton (if e = 'n' then Char.ofNat 10 else e))
    else parseStringBody rest (acc ++ String.singleton c)

/-- Collect leading decimal digits. -/
def takeDigits : List Char → List ℕ × List Char
  | c :: rest =>
    if c.isDigit then
      let (ds, rem) := takeDigits rest
      ((c.toNat - 48) :: ds, rem)
    else ([], c :: rest)
  | [] => ([], [])

/-- Digits to a natural number. -/
def digitsToNat (ds : List ℕ) : ℕ := ds.foldl (fun acc d => acc * 10 + d) 0

/-- Parse a JSON number (integer or simple decimal fraction). -/
def parseJsonNum (cs : List Char) : Option (ℚ × List Char) :=
  let (negSign, cs1) := match cs with
    | c :: rest => if c = '-' then (true, rest) else (false, cs)
    | [] => (false, cs)
  match takeDigits cs1 with
  | ([], _) => none
  | (ds, rem) =>
    let intPart : ℚ := (digitsToNat ds : ℚ)
    let (value, rem2) := match rem with
      | c :: rest =>
        if c = '.' then
          match takeDigits rest with
          | ([], _) => (intPart, rem)
          | (fs, rem3) =>
            (intPart + (digitsToNat fs : ℚ) / ((10 : ℚ) ^ fs.length), rem3)
        else (intPart, rem)
      | [] => (intPart, rem)
    some (if negSign then -value else value, rem2)

mutual

/-- Parse one JSON value. -/
def parseJsonVal : ℕ → List Char → Option (JsVal × List Char)
  | 0, _ => none
  | fuel + 1, cs =>
    match skipWs cs with
    | [] => none
    | c :: rest =>
      if c = Char.ofNat 34 then
        match parseStringBody rest "" with
        | some (s, rem) => some (.jstr s, rem)
        | none => none
      else if c = Char.ofNat 123 then parseJsonObj fuel rest []
      else if c = '[' then parseJsonArr fuel rest []
      else if c = 'n' then
        match rest with
        | 'u' :: 'l' :: 'l' :: rem => some (.jnull, rem)
        | _ => none
      else if c = 't' then
        match rest with
        | 'r' :: 'u' :: 'e' :: rem => some (.jbool true, rem)
        | _ => none
      else if c = 'f' then
        match rest with
        | 'a' :: 'l' :: 's' :: 'e' :: rem => some (.jbool false, rem)
        | _ => none
      else
        match parseJsonNum (c :: rest) with
        | some (q, rem) => some (.jnum q, rem)
        | none => none

/-- Parse array elements after `[`, accumulating in order. -/
def parseJsonArr : ℕ → List Char → List JsVal → Option (JsVal × List Char)
  | 0, _, _ => none
  | fuel + 1, cs, acc =>
    match skipWs cs with
    | [] => none
    | c :: rest =>
      if c = ']' ∧ acc.isEmpty = true then some (.jarr [], rest)
      else
        match parseJsonVal fuel (c :: rest) with
        | none => none
        | some (v, rem) =>
          match skipWs rem with
          | ',' :: rem2 => parseJsonArr fuel rem2 (acc ++ [v])
          | ']' :: rem2 => some (.jarr (acc ++ [v]), rem2)
          | _ => none

/-- Parse object members after the opening brace, accumulating in order. -/
def parseJsonObj : ℕ → List Char → List (String × JsVal) → Option (JsVal × List Char)
  | 0, _, _ => none
  | fuel + 1, cs, acc =>
    match skipWs cs with
    | [] => none
    | c :: rest =>
      if c = Char.ofNat 125 ∧ acc.isEmpty = true then some (.jobj [], rest)
      else if c = Char.ofNat 34 then
        match parseStringBody rest "" with
        | none => none
        | some (k, rem) =>
          match skipWs rem with
          | ':' :: rem2 =>
            match parseJsonVal fuel rem2 with
            | none => none
            | some (v, rem3) =>
              match skipWs rem3 with
              | ',' :: rem4 => parseJsonObj fuel rem4 (acc ++ [(k, v)])
              | cl :: rem4 =>
                if cl = Char.ofNat 125 then some (.jobj (acc ++ [(k, v)]), rem4) else none
              | [] => none
          | _ => none
      else none

end

/-- Total entry point: parse and require only whitespace to remain. -/
def jsonParse (s : String) : Option JsVal :=
  match parseJsonVal (s.data.length + 1) s.data with
  | some (v, rem) => if skipWs rem = [] then some v else none
  | none => none

/-- The platform's throwing `JSON.parse`. -/
def jsParse (s : String) : Except String JsVal :=
  match jsonParse s with
  | some v => .ok v
  | none => .error "SyntaxError: Unexpected token in JSON"

/-! ## Provider normalizers (`src/providers.ts`)

Each converter mirrors its TypeScript interface; optional payload fields are
`Option`.  Generated fallback evaluation ids (`Date.now()` + `Math.random()`)
are impure and irrelevant to every claim; they are modelled by fixed
placeholder strings.  The `provider`-attributes passthrough sub-object
(OpenAI fingerprint, safety normalization) is outside the claims and not
modelled. -/

/-- An Ollama tool-call function. -/
structure OllamaFn where
  name : String
  arguments : JsVal

/-- An Ollama tool call. -/
structure OllamaToolCall where
  function : OllamaFn

/-- An Ollama chat message. -/
structure OllamaMsg where
  role : String
  content : String
  tool_calls : Option (List OllamaToolCall)

/-- `OllamaResponse` (`src/providers.ts:7-28`); durations in nanoseconds. -/
structure OllamaResponse where
  model : String
  created_at : String
  message : OllamaMsg
  done_reason : Option String
  done : Bool
  total_duration : Option ℚ
  load_duration : Option ℚ
  prompt_eval_count : Option ℚ
  prompt_eval_duration : Option ℚ
  eval_count : Option ℚ
  eval_duration : Option ℚ

/-- `OllamaRequest` (`src/providers.ts:30-49`). -/
structure OllamaRequest where
  model : String
  messages : Option (List OllamaMsg)
  prompt : Option String
  temperature : Option ℚ
  top_k : Option ℚ
  top_p : Option ℚ
  num_predict : Option ℚ
  stop : Option (List String)
  seed : Option ℚ

/-- `OllamaConversionOptions` (`src/providers.ts:51-74`). -/
structure OllamaConversionOptions where
  evalId : Option String
  conversationId : Option String
  conversationMessages : Option (List OllamaMsg)
  toolExecution : Option ToolData

/-- The `x ? x / 1e9 : 0` nanosecond-to-second conversion with JS truthiness
on the operand. -/
def nsToSecOrZero (o : Option ℚ) : ℚ :=
  match o with
  | some d => if d ≠ 0 then d / 1000000000 else 0
  | none => 0

/-- Ollama tool calls mapped into canonical tool calls with enumerated ids
(`src/providers.ts:106-113`). -/
def ollamaToolCalls (tcs : List OllamaToolCall) : List ToolCall :=
  tcs.mapIdx fun idx call =>
    { id := "call_" ++ toString idx
    , type := "function"
    , function := { name := call.function.name, argumentsVal := .argObj call.function.arguments } }

/-- `convertOllamaToEval2Otel` (`src/providers.ts:79-185`). -/
def convertOllamaToEval2Otel (request : OllamaRequest) (response : OllamaResponse)
    (startTime : ℚ) (options : OllamaConversionOptions) : EvalResult :=
  let evalId := options.evalId.getD "ollama-generated"
  let timestamp := startTime
  let totalDurationSec := nsToSecOrZero response.total_duration
  let evalDurationSec := nsToSecOrZero response.eval_duration
  let timeToFirstToken :=
    match response.load_duration with
    | some d => if d ≠ 0 then some (d / 1000000000) else none
    | none => none
  let timePerOutputToken :=
    match response.eval_count with
    | some c => if c ≠ 0 ∧ evalDurationSec ≠ 0 then some (evalDurationSec / c) else none
    | none => none
  let hasToolCalls :=
    match response.message.tool_calls with
    | some l => decide (0 < l.length)
    | none => false
  let operation := if hasToolCalls then "execute_tool" else "chat"
  let choices : List Choice :=
    [ { index := 0
      , finishReason := response.done_reason.getD (if response.done then "stop" else "length")
      , message :=
        { role := response.message.role
        , content := some (.text response.message.content)
        , toolCallId := none
        , toolCalls := response.message.tool_calls.map ollamaToolCalls } } ]
  { id := evalId
  , timestamp := timestamp
  , model := response.model
  , system := some "ollama"
  , operation := operation
  , request :=
    { model := request.model
    , temperature := request.temperature
    , maxTokens := request.num_predict
    , topP := request.top_p
    , topK := request.top_k
    , frequencyPenalty := none
    , presencePenalty := none
    , stopSequences := request.stop
    , seed := request.seed
    , choiceCount := some 1 }
  , response :=
    { id := some ("ollama-" ++ toString timestamp)
    , model := some response.model
    , finishReasons := some [response.done_reason.getD "stop"]
    , choices := some choices }
  , usage :=
    { inputTokens := response.prompt_eval_count
    , outputTokens := response.eval_count
    , totalTokens := some (response.prompt_eval_count.getD 0 + response.eval_count.getD 0) }
  , performance :=
    { duration := totalDurationSec
    , timeToFirstToken := timeToFirstToken
    , timePerOutputToken := timePerOutputToken }
  , error := none
  , conversation := options.conversationMessages.map fun msgs =>
      { id := options.conversationId.getD ("conv-" ++ evalId)
      , messages := msgs.map fun msg =>
        { role := msg.role
        , content := some (.text msg.content)
        , toolCallId := none
        , toolCalls := msg.tool_calls.map ollamaToolCalls } }
  , tool :=
    match options.toolExecution with
    | some te => if hasToolCalls then some te else none
    | none => none }

/-- An OpenAI-shaped tool call whose `arguments` is a serialized string. -/
structure OAToolCallStr where
  id : String
  type : String
  fnName : String
  fnArguments : String

/-- A message inside an OpenAI-compatible response choice. -/
structure OACompatMsg where
  role : String
  content : Option String
  tool_calls : Option (List OAToolCallStr)

/-- One OpenAI-compatible response choice. -/
structure OACompatChoice where
  index : ℚ
  message : OACompatMsg
  finish_reason : String

/-- Required usage block of `OpenAICompatibleResponse`. -/
structure OACompatUsage where
  prompt_tokens : ℚ
  completion_tokens : ℚ
  total_tokens : ℚ

/-- `OpenAICompatibleResponse` (`src/providers.ts:191-217`). -/
structure OpenAICompatibleResponse where
  id : String
  object : String
  created : ℚ
  model : String
  choices : List OACompatChoice
  usage : OACompatUsage

/-- `OpenAICompatibleRequest` (`src/providers.ts:219-230`). -/
structure OpenAICompatibleRequest where
  model : String
  messages : Option (List OACompatMsg)
  temperature : Option ℚ
  max_tokens : Option ℚ
  top_p : Option ℚ
  frequency_penalty : Option ℚ
  presence_penalty : Option ℚ
  stop : Option (List String)
  seed : Option ℚ
  n : Option ℚ

/-- Options of the OpenAI-style converters. -/
structure OAConversionOptions where
  evalId : Option String
  conversationId : Option String
  system : Option String

/-- Parse one serialized tool call (`JSON.parse(call.function.arguments)`,
`src/providers.ts:275-283`); a parse failure is a thrown `SyntaxError`. -/
def parseOAToolCall (call : OAToolCallStr) : Except String ToolCall := do
  let parsed ← jsParse call.fnArguments
  pure
    { id := call.id
    , type := call.type
    , function := { name := call.fnName, argumentsVal := .argObj parsed } }

/-- `convertOpenAICompatibleToEval2Otel` (`src/providers.ts:232-297`). -/
def convertOpenAICompatibleToEval2Otel (request : OpenAICompatibleRequest)
    (response : OpenAICompatibleResponse) (startTime endTime : ℚ)
    (options : OAConversionOptions) : Except String EvalResult := do
  let evalId := options.evalId.getD "openai-compat-generated"
  let duration := (endTime - startTime) / 1000
  let hasToolCalls := response.choices.any fun choice =>
    match choice.message.tool_calls with
    | some l => decide (0 < l.length)
    | none => false
  let choices ← response.choices.mapM fun choice => do
    let toolCalls ← match choice.message.tool_calls with
      | some calls => do
        let parsed ← calls.mapM parseOAToolCall
        pure (some parsed)
      | none => pure none
    pure
      { index := choice.index
      , finishReason := choice.finish_reason
      , message :=
        { role := choice.message.role
        , content := some (.text (choice.message.content.getD ""))
        , toolCallId := none
        , toolCalls := toolCalls } : Choice }
  pure
    { id := evalId
    , timestamp := startTime
    , model := response.model
    , system := some (options.system.getD "openai-compatible")
    , operation := if hasToolCalls then "execute_tool" else "chat"
    , request :=
      { model := request.model
      , temperature := request.temperature
      , maxTokens := request.max_tokens
      , topP := request.top_p
      , topK := none
      , frequencyPenalty := request.frequency_penalty
      , presencePenalty := request.presence_penalty
      , stopSequences := request.stop
      , seed := request.seed
      , choiceCount := some (request.n.getD 1) }
    , response :=
      { id := some response.id
      , model := some response.model
      , finishReasons := some (response.choices.map (·.finish_reason))
      , choices := some choices }
    , usage :=
      { inputTokens := some response.usage.prompt_tokens
      , outputTokens := some response.usage.completion_tokens
      , totalTokens := some response.usage.total_tokens }
    , performance := { duration := duration, timeToFirstToken := none, timePerOutputToken := none }
    , error := none
    , conversation := none
    , tool := none }

/-- A multimodal content part of an OpenAI chat request message. -/
structure OAPart where
  type : String
  text : Option String

/-- Content of an OpenAI chat request message:
`string | null | Array<part>`. -/
inductive OAChatContent where
  | cnull
  | cstr (s : String)
  | cparts (parts : List OAPart)

/-- One OpenAI chat request message. -/
structure OAChatMsg where
  role : String
  content : OAChatContent

/-- One OpenAI native response choice (logprobs are passthrough provider
attributes, outside the claims). -/
structure OAChatChoice where
  index : ℚ
  message : OACompatMsg
  finish_reason : String

/-- Optional usage block of `OpenAIChatResponse`. -/
structure OAChatUsage where
  prompt_tokens : Option ℚ
  completion_tokens : Option ℚ
  total_tokens : Option ℚ

/-- `OpenAIChatResponse` (`src/providers.ts:315-340`). -/
structure OpenAIChatResponse where
  id : String
  object : String
  created : ℚ
  model : String
  system_fingerprint : Option String
  choices : List OAChatChoice
  usage : Option OAChatUsage

/-- `OpenAIChatRequest` (`src/providers.ts:302-313`). -/
structure OpenAIChatRequest where
  model : String
  messages : List OAChatMsg
  temperature : Option ℚ
  max_tokens : Option ℚ
  top_p : Option ℚ
  frequency_penalty : Option ℚ
  presence_penalty : Option ℚ
  stop : Option (List String)
  seed : Option ℚ
  n : Option ℚ

/-- Text-only flattening of a multimodal message
(`src/providers.ts:352-358`): keep `text` parts, drop falsy texts, join with
newlines. -/
def flattenOAParts (parts : List OAPart) : String :=
  String.intercalate "\n"
    ((parts.filter (fun p => p.type = "text")).filterMap fun p =>
      match p.text with
      | some t => if t = "" then none else some t
      | none => none)

/-- One conversation message of the OpenAI chat converter. -/
def oaChatConvMessage (m : OAChatMsg) : Message :=
  match m.content with
  | .cparts parts =>
    { role := m.role, content := some (.text (flattenOAParts parts))
    , toolCallId := none, toolCalls := none }
  | .cstr s =>
    { role := m.role, content := some (.text s), toolCallId := none, toolCalls := none }
  | .cnull =>
    { role := m.role, content := none, toolCallId := none, toolCalls := none }

/-- `convertOpenAIChatToEval2Otel` (`src/providers.ts:342-410`). -/
def convertOpenAIChatToEval2Otel (request : OpenAIChatRequest)
    (response : OpenAIChatResponse) (startTime endTime : ℚ)
    (options : OAConversionOptions) : Except String EvalResult := do
  let evalId := options.evalId.getD "openai-generated"
  let duration := (endTime - startTime) / 1000
  let convMessages := request.messages.map oaChatConvMessage
  let hasToolCalls := response.choices.any fun c =>
    match c.message.tool_calls with
    | some l => decide (0 < l.length)
    | none => false
  let choices ← response.choices.mapM fun c => do
    let toolCalls ← match c.message.tool_calls with
      | some calls => do
        let parsed ← calls.mapM parseOAToolCall
        pure (some parsed)
      | none => pure none
    pure
      { index := c.index
      , finishReason := c.finish_reason
      , message :=
        { role := c.message.role
        , content := some (.text (c.message.content.getD ""))
        , toolCallId := none
        , toolCalls := toolCalls } : Choice }
  pure
    { id := evalId
    , timestamp := startTime
    , model := response.model
    , system := some "openai"
    , operation := if hasToolCalls then "execute_tool" else "chat"
    , request :=
      { model := request.model
      , temperature := request.temperature
      , maxTokens := request.max_tokens
      , topP := request.top_p
      , topK := none
      , frequencyPenalty := request.frequency_penalty
      , presencePenalty := request.presence_penalty
      , stopSequences := request.stop
      , seed := request.seed
      , choiceCount := some (request.n.getD 1) }
    , response :=
      { id := some response.id
      , model := some response.model
      , finishReasons := some (response.choices.map (·.finish_reason))
      , choices := some choices }
    , usage :=
      { inputTokens := response.usage.bind (·.prompt_tokens)
      , outputTokens := response.usage.bind (·.completion_tokens)
      , totalTokens := response.usage.bind (·.total_tokens) }
    , performance := { duration := duration, timeToFirstToken := none, timePerOutputToken := none }
    , error := none
    , conversation := some (
      { id := options.conversationId.getD ("conv-" ++ evalId)
      , messages := convMessages })
    , tool := none }

/-- A typed content part of an Anthropic response:
`{type:'text'} | {type:'tool_use'}`. -/
inductive AnthPart where
  | textP (text : String)
  | toolUseP (name : String) (input : JsVal)

/-- Content of an Anthropic request message. -/
inductive AnthReqContent where
  | parts (ps : List OAPart)
  | strC (s : String)

/-- One Anthropic request message. -/
structure AnthMsg where
  role : String
  content : AnthReqContent

/-- `AnthropicRequest` (`src/providers.ts:415-419`). -/
structure AnthropicRequest where
  model : String
  messages : Option (List AnthMsg)
  temperature : Option ℚ
  max_tokens : Option ℚ
  top_p : Option ℚ
  top_k : Option ℚ
  stop_sequences : Option (List String)
  seed : Option ℚ

/-- Optional usage block of `AnthropicResponse`. -/
structure AnthUsage where
  input_tokens : Option ℚ
  output_tokens : Option ℚ
  total_tokens : Option ℚ

/-- `AnthropicResponse` (`src/providers.ts:420-427`); the `safety` object
feeds only passthrough provider attributes, outside the claims. -/
structure AnthropicResponse where
  id : String
  model : String
  stop_reason : Option String
  content : List AnthPart
  usage : Option AnthUsage

/-- `convertAnthropicToEval2Otel` (`src/providers.ts:429-502`). -/
def convertAnthropicToEval2Otel (request : AnthropicRequest)
    (response : AnthropicResponse) (startTime endTime : ℚ)
    (options : OAConversionOptions) : EvalResult :=
  let evalId := options.evalId.getD "anthropic-generated"
  let duration := (endTime - startTime) / 1000
  let hasToolUse := response.content.any fun c =>
    match c with
    | .toolUseP _ _ => true
    | _ => false
  let textParts := response.content.filterMap fun c =>
    match c with
    | .textP t => some t
    | _ => none
  let toolCalls := (response.content.filterMap fun c =>
    match c with
    | .toolUseP name input => some (name, input)
    | _ => none).mapIdx fun i t =>
      ({ id := "tool_" ++ toString i
       , type := "function"
       , function := { name := t.1, argumentsVal := .argObj t.2 } } : ToolCall)
  { id := evalId
  , timestamp := startTime
  , model := response.model
  , system := some "anthropic"
  , operation := if hasToolUse then "execute_tool" else "chat"
  , request :=
    { model := request.model
    , temperature := request.temperature
    , maxTokens := request.max_tokens
    , topP := request.top_p
    , topK := request.top_k
    , frequencyPenalty := none
    , presencePenalty := none
    , stopSequences := request.stop_sequences
    , seed := request.seed
    , choiceCount := some 1 }
  , response :=
    { id := some response.id
    , model := some response.model
    , finishReasons := some [response.stop_reason.getD "stop"]
    , choices := some (
      [ { index := 0
        , finishReason := response.stop_reason.getD "stop"
        , message :=
          { role := "assistant"
          , content := some (.text (String.intercalate "\n" textParts))
          , toolCallId := none
          , toolCalls := some toolCalls } } ])
    }
  , usage :=
    { inputTokens := response.usage.bind (·.input_tokens)
    , outputTokens := response.usage.bind (·.output_tokens)
    , totalTokens := response.usage.bind (·.total_tokens) }
  , performance := { duration := duration, timeToFirstToken := none, timePerOutputToken := none }
  , error := none
  , conversation := request.messages.map fun msgs =>
    { id := options.conversationId.getD ("conv-" ++ evalId)
    , messages := msgs.map fun m =>
      { role := m.role
      , content :=
        match m.content with
        | .parts ps => some (.text (String.intercalate "\n"
            (ps.filterMap fun p =>
              match p.text with
              | some t => if t = "" then none else some t
              | none => none)))
        | .strC s => some (.text s)
      , toolCallId := none
      , toolCalls := none } }
  , tool := none }

/-- A plain role/content message (Cohere and Bedrock request shape). -/
structure PlainMsg where
  role : String
  content : String

/-- `CohereRequest` (`src/providers.ts:507-511`). -/
structure CohereRequest where
  model : String
  messages : Option (List PlainMsg)
  temperature : Option ℚ
  max_tokens : Option ℚ
  p : Option ℚ
  k : Option ℚ
  stop_sequences : Option (List String)
  seed : Option ℚ

/-- The `billed_units` object inside Cohere's `meta`. -/
structure CohereBilledUnits where
  input_tokens : Option ℚ
  output_tokens : Option ℚ
  total_tokens : Option ℚ

/-- Cohere's `meta` object. -/
structure CohereMeta where
  billed_units : Option CohereBilledUnits

/-- `CohereResponse` (`src/providers.ts:512-519`); the `safety` object feeds
only passthrough provider attributes, outside the claims. -/
structure CohereResponse where
  id : String
  model : String
  text : String
  finish_reason : Option String
  meta : Option CohereMeta

/-- `convertCohereToEval2Otel` (`src/providers.ts:521-577`); note the
`billed = response.meta?.billed_units ?? {}` default of an empty object,
whose token fields then all read as absent. -/
def convertCohereToEval2Otel (request : CohereRequest) (response : CohereResponse)
    (startTime endTime : ℚ) (options : OAConversionOptions) : EvalResult :=
  let evalId := options.evalId.getD "cohere-generated"
  let duration := (endTime - startTime) / 1000
  let billed := (response.meta.bind (·.billed_units)).getD
    { input_tokens := none, output_tokens := none, total_tokens := none }
  { id := evalId
  , timestamp := startTime
  , model := response.model
  , system := some "cohere"
  , operation := "chat"
  , request :=
    { model := request.model
    , temperature := request.temperature
    , maxTokens := request.max_tokens
    , topP := request.p
    , topK := request.k
    , frequencyPenalty := none
    , presencePenalty := none
    , stopSequences := request.stop_sequences
    , seed := request.seed
    , choiceCount := some 1 }
  , response :=
    { id := some response.id
    , model := some response.model
    , finishReasons := some [response.finish_reason.getD "stop"]
    , choices := some (
      [ { index := 0
        , finishReason := response.finish_reason.getD "stop"
        , message :=
          { role := "assistant"
          , content := some (.text response.text)
          , toolCallId := none
          , toolCalls := none } } ]) }
  , usage :=
    { inputTokens := billed.input_tokens
    , outputTokens := billed.output_tokens
    , totalTokens :=
      some (billed.total_tokens.getD (billed.input_tokens.getD 0 + billed.output_tokens.getD 0)) }
  , performance := { duration := duration, timeToFirstToken := none, timePerOutputToken := none }
  , error := none
  , conversation := request.messages.map fun msgs =>
    { id := options.conversationId.getD ("conv-" ++ evalId)
    , messages := msgs.map fun m =>
      { role := m.role, content := some (.text m.content)
      , toolCallId := none, toolCalls := none } }
  , tool := none }

/-- `BedrockRequest` (`src/providers.ts:583-588`). -/
structure BedrockRequest where
  modelId : String
  inputText : Option String
  messages : Option (List PlainMsg)
  temperature : Option ℚ
  top_p : Option ℚ
  top_k : Option ℚ
  maxTokens : Option ℚ
  stopSequences : Option (List String)
  seed : Option ℚ

/-- Usage block of `BedrockResponse`. -/
structure BedrockUsage where
  inputTokens : Option ℚ
  outputTokens : Option ℚ
  totalTokens : Option ℚ

/-- `BedrockResponse` (`src/providers.ts:589-595`). -/
structure BedrockResponse where
  modelId : String
  outputText : Option String
  messages : Option (List PlainMsg)
  stopReason : Option String
  usage : Option BedrockUsage

/-- `convertBedrockToEval2Otel` (`src/providers.ts:596-643`). -/
def convertBedrockToEval2Otel (request : BedrockRequest) (response : BedrockResponse)
    (startTime endTime : ℚ) (options : OAConversionOptions) : EvalResult :=
  let evalId := options.evalId.getD "bedrock-generated"
  let duration := (endTime - startTime) / 1000
  let content := response.outputText.getD ""
  { id := evalId
  , timestamp := startTime
  , model := response.modelId
  , system := some "aws.bedrock"
  , operation := "chat"
  , request :=
    { model := request.modelId
    , temperature := request.temperature
    , maxTokens := request.maxTokens
    , topP := request.top_p
    , topK := request.top_k
    , frequencyPenalty := none
    , presencePenalty := none
    , stopSequences := request.stopSequences
    , seed := request.seed
    , choiceCount := some 1 }
  , response :=
    { id := some (response.modelId ++ "-" ++ toString startTime)
    , model := some response.modelId
    , finishReasons := some [response.stopReason.getD "stop"]
    , choices := some (
      [ { index := 0
        , finishReason := response.stopReason.getD "stop"
        , message :=
          { role := "assistant"
          , content := some (.text content)
          , toolCallId := none
          , toolCalls := none } } ]) }
  , usage :=
    { inputTokens := response.usage.bind (·.inputTokens)
    , outputTokens := response.usage.bind (·.outputTokens)
    , totalTokens :=
      some (((response.usage.bind (·.totalTokens)).getD
        ((response.usage.bind (·.inputTokens)).getD 0
          + (response.usage.bind (·.outputTokens)).getD 0))) }
  , performance := { duration := duration, timeToFirstToken := none, timePerOutputToken := none }
  , error := none
  , conversation := request.messages.map fun msgs =>
    { id := options.conversationId.getD ("conv-" ++ evalId)
    , messages := msgs.map fun m =>
      { role := m.role, content := some (.text m.content)
      , toolCallId := none, toolCalls := none } }
  , tool := none }

/-- A Vertex content part. -/
structure VertexPart where
  text : Option String

/-- The content of a Vertex candidate or request turn. -/
structure VertexContent where
  role : String
  parts : List VertexPart

/-- One Vertex candidate. -/
structure VertexCandidate where
  index : Option ℚ
  finishReason : Option String
  content : VertexContent

/-- Usage metadata of `VertexResponse`. -/
structure VertexUsage where
  promptTokenCount : Option ℚ
  candidatesTokenCount : Option ℚ
  totalTokenCount : Option ℚ

/-- `VertexResponse` (`src/providers.ts:741-745`); per-candidate safety
ratings feed only passthrough provider attributes, outside the claims. -/
structure VertexResponse where
  model : String
  candidates : List VertexCandidate
  usageMetadata : Option VertexUsage

/-- `VertexRequest` (`src/providers.ts:736-740`). -/
structure VertexRequest where
  model : String
  contents : Option (List VertexContent)
  temperature : Option ℚ
  topP : Option ℚ
  topK : Option ℚ
  maxOutputTokens : Option ℚ
  stopSequences : Option (List String)
  seed : Option ℚ

/-- Join the truthy texts of the parts with newlines
(`parts.map(p => p.text).filter(Boolean).join('\n')`). -/
def vertexJoinParts (parts : List VertexPart) : String :=
  String.intercalate "\n" (parts.filterMap fun p =>
    match p.text with
    | some t => if t = "" then none else some t
    | none => none)

/-- `convertVertexToEval2Otel` (`src/providers.ts:746-824`). -/
def convertVertexToEval2Otel (request : VertexRequest) (response : VertexResponse)
    (startTime endTime : ℚ) (options : OAConversionOptions) : EvalResult :=
  let evalId := options.evalId.getD "vertex-generated"
  let duration := (endTime - startTime) / 1000
  let choices : List Choice := response.candidates.mapIdx fun i c =>
    { index := c.index.getD (i : ℚ)
    , finishReason := c.finishReason.getD "stop"
    , message :=
      { role := c.content.role
      , content := some (.text (vertexJoinParts c.content.parts))
      , toolCallId := none
      , toolCalls := none } }
  { id := evalId
  , timestamp := startTime
  , model := response.model
  , system := some "google.vertex"
  , operation := "chat"
  , request :=
    { model := request.model
    , temperature := request.temperature
    , maxTokens := request.maxOutputTokens
    , topP := request.topP
    , topK := request.topK
    , frequencyPenalty := none
    , presencePenalty := none
    , stopSequences := request.stopSequences
    , seed := request.seed
    , choiceCount := some (choices.length : ℚ) }
  , response :=
    { id := some (response.model ++ "-" ++ toString startTime)
    , model := some response.model
    , finishReasons := some (choices.map (·.finishReason))
    , choices := some choices }
  , usage :=
    { inputTokens := response.usageMetadata.bind (·.promptTokenCount)
    , outputTokens := response.usageMetadata.bind (·.candidatesTokenCount)
    , totalTokens := response.usageMetadata.bind (·.totalTokenCount) }
  , performance := { duration := duration, timeToFirstToken := none, timePerOutputToken := none }
  , error := none
  , conversation := request.contents.map fun msgs =>
    { id := options.conversationId.getD ("conv-" ++ evalId)
    , messages := msgs.map fun m =>
      { role := m.role, content := some (.text (vertexJoinParts m.parts))
      , toolCallId := none, toolCalls := none } }
  , tool := none }

/-! ## Provider dispatch (`src/helpers.ts:33-76`)

`convertProviderToEvalResult` receives `any`-typed payloads and passes them
unchecked into the typed converters.  The `read…` functions below model that
implicit cast: each reads exactly the fields of the corresponding TypeScript
interface from the untyped value, treating non-conforming runtime values as
absent (for optional fields) or as the type's empty value (for required
ones).  Only the `unknown`/unsupported-mode behavior is the subject of a
claim; those paths never reach a converter or a decoder. -/

/-- Read an optional string field. -/
def jStrOpt (v : JsVal) (k : String) : Option String :=
  match v.get k with
  | .jstr s => some s
  | _ => none

/-- Read a required string field (empty when absent). -/
def jStrD (v : JsVal) (k : String) : String := (jStrOpt v k).getD ""

/-- Read an optional number field. -/
def jNumOpt (v : JsVal) (k : String) : Option ℚ :=
  match v.get k with
  | .jnum q => some q
  | _ => none

/-- Read a required boolean field (false when absent). -/
def jBoolD (v : JsVal) (k : String) : Bool :=
  match v.get k with
  | .jbool b => b
  | _ => false

/-- Read an optional array field. -/
def jArrOpt (v : JsVal) (k : String) : Option (List JsVal) :=
  match v.get k with
  | .jarr xs => some xs
  | _ => none

/-- Read an optional string-array field. -/
def jStrListOpt (v : JsVal) (k : String) : Option (List String) :=
  (jArrOpt v k).map fun xs => xs.filterMap fun x =>
    match x with
    | .jstr s => some s
    | _ => none

/-- Read a plain role/content message. -/
def readPlainMsg (v : JsVal) : PlainMsg :=
  { role := jStrD v "role", content := jStrD v "content" }

/-- Read an Ollama tool call. -/
def readOllamaToolCall (v : JsVal) : OllamaToolCall :=
  { function :=
    { name := jStrD (v.get "function") "name"
    , arguments := (v.get "function").get "arguments" } }

/-- Read an Ollama message. -/
def readOllamaMsg (v : JsVal) : OllamaMsg :=
  { role := jStrD v "role"
  , content := jStrD v "content"
  , tool_calls := (jArrOpt v "tool_calls").map (·.map readOllamaToolCall) }

/-- Read an `OllamaResponse`. -/
def readOllamaResponse (v : JsVal) : OllamaResponse :=
  { model := jStrD v "model"
  , created_at := jStrD v "created_at"
  , message := readOllamaMsg (v.get "message")
  , done_reason := jStrOpt v "done_reason"
  , done := jBoolD v "done"
  , total_duration := jNumOpt v "total_duration"
  , load_duration := jNumOpt v "load_duration"
  , prompt_eval_count := jNumOpt v "prompt_eval_count"
  , prompt_eval_duration := jNumOpt v "prompt_eval_duration"
  , eval_count := jNumOpt v "eval_count"
  , eval_duration := jNumOpt v "eval_duration" }

/-- Read an `OllamaRequest`. -/
def readOllamaRequest (v : JsVal) : OllamaRequest :=
  { model := jStrD v "model"
  , messages := (jArrOpt v "messages").map (·.map readOllamaMsg)
  , prompt := jStrOpt v "prompt"
  , temperature := jNumOpt v "temperature"
  , top_k := jNumOpt v "top_k"
  , top_p := jNumOpt v "top_p"
  , num_predict := jNumOpt v "num_predict"
  , stop := jStrListOpt v "stop"
  , seed := jNumOpt v "seed" }

/-- Read a serialized tool call of the OpenAI shape. -/
def readOAToolCallStr (v : JsVal) : OAToolCallStr :=
  { id := jStrD v "id"
  , type := jStrD v "type"
  , fnName := jStrD (v.get "function") "name"
  , fnArguments := jStrD (v.get "function") "arguments" }

/-- Read an OpenAI-compatible choice message. -/
def readOACompatMsg (v : JsVal) : OACompatMsg :=
  { role := jStrD v "role"
  , content := jStrOpt v "content"
  , tool_calls := (jArrOpt v "tool_calls").map (·.map readOAToolCallStr) }

/-- Read an OpenAI-compatible choice. -/
def readOACompatChoice (v : JsVal) : OACompatChoice :=
  { index := (jNumOpt v "index").getD 0
  , message := readOACompatMsg (v.get "message")
  , finish_reason := jStrD v "finish_reason" }

/-- Read an `OpenAICompatibleResponse`. -/
def readOpenAICompatibleResponse (v : JsVal) : OpenAICompatibleResponse :=
  { id := jStrD v "id"
  , object := jStrD v "object"
  , created := (jNumOpt v "created").getD 0
  , model := jStrD v "model"
  , choices := ((jArrOpt v "choices").getD []).map readOACompatChoice
  , usage :=
    { prompt_tokens := (jNumOpt (v.get "usage") "prompt_tokens").getD 0
    , completion_tokens := (jNumOpt (v.get "usage") "completion_tokens").getD 0
    , total_tokens := (jNumOpt (v.get "usage") "total_tokens").getD 0 } }

/-- Read an `OpenAICompatibleRequest`. -/
def readOpenAICompatibleRequest (v : JsVal) : OpenAICompatibleRequest :=
  { model := jStrD v "model"
  , messages := (jArrOpt v "messages").map (·.map readOACompatMsg)
  , temperature := jNumOpt v "temperature"
  , max_tokens := jNumOpt v "max_tokens"
  , top_p := jNumOpt v "top_p"
  , frequency_penalty := jNumOpt v "frequency_penalty"
  , presence_penalty := jNumOpt v "presence_penalty"
  , stop := jStrListOpt v "stop"
  , seed := jNumOpt v "seed"
  , n := jNumOpt v "n" }

/-- Read a multimodal content part. -/
def readOAPart (v : JsVal) : OAPart :=
  { type := jStrD v "type", text := jStrOpt v "text" }

/-- Read an OpenAI chat request message. -/
def readOAChatMsg (v : JsVal) : OAChatMsg :=
  { role := jStrD v "role"
  , content :=
    match v.get "content" with
    | .jstr s => .cstr s
    | .jarr parts => .cparts (parts.map readOAPart)
    | _ => .cnull }

/-- Read an OpenAI native chat choice. -/
def readOAChatChoice (v : JsVal) : OAChatChoice :=
  { index := (jNumOpt v "index").getD 0
  , message := readOACompatMsg (v.get "message")
  , finish_reason := jStrD v "finish_reason" }

/-- Read an `OpenAIChatResponse`. -/
def readOpenAIChatResponse (v : JsVal) : OpenAIChatResponse :=
  { id := jStrD v "id"
  , object := jStrD v "object"
  , created := (jNumOpt v "created").getD 0
  , model := jStrD v "model"
  , system_fingerprint := jStrOpt v "system_fingerprint"
  , choices := ((jArrOpt v "choices").getD []).map readOAChatChoice
  , usage :=
    match v.get "usage" with
    | .jobj _ => some
      { prompt_tokens := jNumOpt (v.get "usage") "prompt_tokens"
      , completion_tokens := jNumOpt (v.get "usage") "completion_tokens"
      , total_tokens := jNumOpt (v.get "usage") "total_tokens" }
    | _ => none }

/-- Read an `OpenAIChatRequest`. -/
def readOpenAIChatRequest (v : JsVal) : OpenAIChatRequest :=
  { model := jStrD v "model"
  , messages := ((jArrOpt v "messages").getD []).map readOAChatMsg
  , temperature := jNumOpt v "temperature"
  , max_tokens := jNumOpt v "max_tokens"
  , top_p := jNumOpt v "top_p"
  , frequency_penalty := jNumOpt v "frequency_penalty"
  , presence_penalty := jNumOpt v "presence_penalty"
  , stop := jStrListOpt v "stop"
  , seed := jNumOpt v "seed"
  , n := jNumOpt v "n" }

/-- Read an Anthropic response content part; parts of other types are
ignored by every consumer in the converter and are dropped. -/
def readAnthParts (xs : List JsVal) : List AnthPart :=
  xs.filterMap fun v =>
    if (v.get "type").eqStr "text" then some (.textP (jStrD v "text"))
    else if (v.get "type").eqStr "tool_use" then
      some (.toolUseP (jStrD v "name") (v.get "input"))
    else none

/-- Read an Anthropic request message. -/
def readAnthMsg (v : JsVal) : AnthMsg :=
  { role := jStrD v "role"
  , content :=
    match v.get "content" with
    | .jarr parts => .parts (parts.map readOAPart)
    | .jstr s => .strC s
    | _ => .strC "" }

/-- Read an `AnthropicResponse`. -/
def readAnthropicResponse (v : JsVal) : AnthropicResponse :=
  { id := jStrD v "id"
  , model := jStrD v "model"
  , stop_reason := jStrOpt v "stop_reason"
  , content := readAnthParts ((jArrOpt v "content").getD [])
  , usage :=
    match v.get "usage" with
    | .jobj _ => some
      { input_tokens := jNumOpt (v.get "usage") "input_tokens"
      , output_tokens := jNumOpt (v.get "usage") "output_tokens"
      , total_tokens := jNumOpt (v.get "usage") "total_tokens" }
    | _ => none }

/-- Read an `AnthropicRequest`. -/
def readAnthropicRequest (v : JsVal) : AnthropicRequest :=
  { model := jStrD v "model"
  , messages := (jArrOpt v "messages").map (·.map readAnthMsg)
  , temperature := jNumOpt v "temperature"
  , max_tokens := jNumOpt v "max_tokens"
  , top_p := jNumOpt v "top_p"
  , top_k := jNumOpt v "top_k"
  , stop_sequences := jStrListOpt v "stop_sequences"
  , seed := jNumOpt v "seed" }

/-- Read a `CohereResponse`. -/
def readCohereResponse (v : JsVal) : CohereResponse :=
  { id := jStrD v "id"
  , model := jStrD v "model"
  , text := jStrD v "text"
  , finish_reason := jStrOpt v "finish_reason"
  , meta :=
    match v.get "meta" with
    | .jobj _ => some
      { billed_units :=
        match (v.get "meta").get "billed_units" with
        | .jobj _ => some
          { input_tokens := jNumOpt ((v.get "meta").get "billed_units") "input_tokens"
          , output_tokens := jNumOpt ((v.get "meta").get "billed_units") "output_tokens"
          , total_tokens := jNumOpt ((v.get "meta").get "billed_units") "total_tokens" }
        | _ => none }
    | _ => none }

/-- Read a `CohereRequest`. -/
def readCohereRequest (v : JsVal) : CohereRequest :=
  { model := jStrD v "model"
  , messages := (jArrOpt v "messages").map (·.map readPlainMsg)
  , temperature := jNumOpt v "temperature"
  , max_tokens := jNumOpt v "max_tokens"
  , p := jNumOpt v "p"
  , k := jNumOpt v "k"
  , stop_sequences := jStrListOpt v "stop_sequences"
  , seed := jNumOpt v "seed" }

/-- Read a `BedrockResponse`. -/
def readBedrockResponse (v : JsVal) : BedrockResponse :=
  { modelId := jStrD v "modelId"
  , outputText := jStrOpt v "outputText"
  , messages := (jArrOpt v "messages").map (·.map readPlainMsg)
  , stopReason := jStrOpt v "stopReason"
  , usage :=
    match v.get "usage" with
    | .jobj _ => some
      { inputTokens := jNumOpt (v.get "usage") "inputTokens"
      , outputTokens := jNumOpt (v.get "usage") "outputTokens"
      , totalTokens := jNumOpt (v.get "usage") "totalTokens" }
    | _ => none }

/-- Read a `BedrockRequest`. -/
def readBedrockRequest (v : JsVal) : BedrockRequest :=
  { modelId := jStrD v "modelId"
  , inputText := jStrOpt v "inputText"
  , messages := (jArrOpt v "messages").map (·.map readPlainMsg)
  , temperature := jNumOpt v "temperature"
  , top_p := jNumOpt v "top_p"
  , top_k := jNumOpt v "top_k"
  , maxTokens := jNumOpt v "maxTokens"
  , stopSequences := jStrListOpt v "stopSequences"
  , seed := jNumOpt v "seed" }

/-- Read a Vertex content object. -/
def readVertexContent (v : JsVal) : VertexContent :=
  { role := jStrD v "role"
  , parts := ((jArrOpt v "parts").getD []).map fun p => { text := jStrOpt p "text" } }

/-- Read a `VertexResponse`. -/
def readVertexResponse (v : JsVal) : VertexResponse :=
  { model := jStrD v "model"
  , candidates := ((jArrOpt v "candidates").getD []).map fun c =>
    { index := jNumOpt c "index"
    , finishReason := jStrOpt c "finishReason"
    , content := readVertexContent (c.get "content") }
  , usageMetadata :=
    match v.get "usageMetadata" with
    | .jobj _ => some
      { promptTokenCount := jNumOpt (v.get "usageMetadata") "promptTokenCount"
      , candidatesTokenCount := jNumOpt (v.get "usageMetadata") "candidatesTokenCount"
      , totalTokenCount := jNumOpt (v.get "usageMetadata") "totalTokenCount" }
    | _ => none }

/-- Read a `VertexRequest`. -/
def readVertexRequest (v : JsVal) : VertexRequest :=
  { model := jStrD v "model"
  , contents := (jArrOpt v "contents").map (·.map readVertexContent)
  , temperature := jNumOpt v "temperature"
  , topP := jNumOpt v "topP"
  , topK := jNumOpt v "topK"
  , maxOutputTokens := jNumOpt v "maxOutputTokens"
  , stopSequences := jStrListOpt v "stopSequences"
  , seed := jNumOpt v "seed" }

/-- Converter options with no overrides. -/
def noOAOptions : OAConversionOptions :=
  { evalId := none, conversationId := none, system := none }

/-- The seven supported (convertible) provider tags. -/
def supportedProviderTags : List String :=
  ["openai-chat", "openai-compatible", "anthropic", "cohere", "bedrock", "vertex", "ollama"]

/-- Mode resolution of `convertProviderToEvalResult` (`src/helpers.ts:40`):
`mode && mode !== 'unknown' ? mode : detectProvider(request, response)`; the
empty string is falsy. -/
def resolveProviderMode (mode : Option String) (request response : JsVal) : String :=
  match mode with
  | some s => if s ≠ "" ∧ s ≠ "unknown" then s else (detectProvider request response).tag
  | none => (detectProvider request response).tag

/-- `convertProviderToEvalResult` (`src/helpers.ts:33-60`): dispatch over the
resolved mode; every unsupported mode falls through to `null` (`.ok none`).
A converter that throws (`JSON.parse` failure) propagates as `.error`. -/
def convertProviderToEvalResult (request response : JsVal) (startTime endTime : ℚ)
    (mode : Option String) : Except String (Option EvalResult) :=
  let m := resolveProviderMode mode request response
  if m = "openai-chat" then do
    let r ← convertOpenAIChatToEval2Otel (readOpenAIChatRequest request)
      (readOpenAIChatResponse response) startTime endTime noOAOptions
    pure (some r)
  else if m = "openai-compatible" then do
    let r ← convertOpenAICompatibleToEval2Otel (readOpenAICompatibleRequest request)
      (readOpenAICompatibleResponse response) startTime endTime
      { evalId := none, conversationId := none, system := some "openai" }
    pure (some r)
  else if m = "anthropic" then
    pure (some (convertAnthropicToEval2Otel (readAnthropicRequest request)
      (readAnthropicResponse response) startTime endTime noOAOptions))
  else if m = "cohere" then
    pure (some (convertCohereToEval2Otel (readCohereRequest request)
      (readCohereResponse response) startTime endTime noOAOptions))
  else if m = "bedrock" then
    pure (some (convertBedrockToEval2Otel (readBedrockRequest request)
      (readBedrockResponse response) startTime endTime noOAOptions))
  else if m = "vertex" then
    pure (some (convertVertexToEval2Otel (readVertexRequest request)
      (readVertexResponse response) startTime endTime noOAOptions))
  else if m = "ollama" then
    pure (some (convertOllamaToEval2Otel (readOllamaRequest request)
      (readOllamaResponse response) startTime
      { evalId := none, conversationId := none, conversationMessages := none
      , toolExecution := none }))
  else
    pure none

/-- The payload accepted by `convertAnyProvider` (`src/helpers.ts:65-71`). -/
structure AnyProviderPayload where
  request : JsVal
  response : JsVal
  startTime : ℚ
  endTime : Option ℚ
  provider : Option String

/-- `convertAnyProvider` (`src/helpers.ts:65-76`). -/
def convertAnyProvider (payload : AnyProviderPayload) : Except String (Option EvalResult) :=
  let endTime := payload.endTime.getD (payload.startTime + 1)
  let mode :=
    match payload.provider with
    | some s => some s
    | none => some (detectProvider payload.request payload.response).tag
  convertProviderToEvalResult payload.request payload.response payload.startTime endTime mode

/-! ## Observation helpers and concrete fixtures -/

/-- Events of an emission result, discarding the counter table. -/
def eventsOf (r : Except String (List SpanEvent × Counters)) : Option (List SpanEvent) :=
  r.toOption.map (·.1)

/-- The empty per-span counter table (a fresh `WeakMap`). -/
def emptyCounters : Counters := fun _ => none

/-- A configuration with every option off — the baseline for fixtures. -/
def baseConfig : OtelConfig :=
  { captureContent := false
  , sampleContentRate := none
  , contentSampler := none
  , emitOperationalMetadata := none
  , contentMaxLength := none
  , markTruncatedContent := false
  , redact := none
  , redactMessageContent := none
  , redactToolArguments := none
  , maxEventsPerSpan := none
  , metricAttributeAllowlist := none
  , maxMetricAttributes := none }

/-- A plain user message fixture. -/
def msgU (content : String) : Message :=
  { role := "user", content := some (.text content), toolCallId := none, toolCalls := none }

/-- A minimal validated record fixture. -/
def baseEvalRecord : EvalResult :=
  { id := "r1"
  , timestamp := 1
  , model := "gpt-4"
  , system := some "openai"
  , operation := "chat"
  , request :=
    { model := "gpt-4", temperature := none, maxTokens := none, topP := none, topK := none
    , frequencyPenalty := none, presencePenalty := none, stopSequences := none
    , seed := none, choiceCount := none }
  , response := { id := none, model := none, finishReasons := none, choices := none }
  , usage := { inputTokens := none, outputTokens := none, totalTokens := none }
  , performance := { duration := 1, timeToFirstToken := none, timePerOutputToken := none }
  , error := none
  , conversation := none
  , tool := none }

/-- A minimal raw record fixture that passes validation. -/
def baseRawRecord : RawEvalResult :=
  { id := some "r1"
  , timestamp := some 1
  , model := some "gpt-4"
  , system := some "openai"
  , operation := some "chat"
  , request := some (
    { model := some "gpt-4", temperature := none, maxTokens := none, topP := none, topK := none
    , frequencyPenalty := none, presencePenalty := none, stopSequences := none
    , seed := none, choiceCount := none })
  , response := some { id := none, model := none, finishReasons := none, choices := none }
  , usage := some { inputTokens := none, outputTokens := none, totalTokens := none }
  , performance := some (
    { duration := some 1, timeToFirstToken := none, timePerOutputToken := none })
  , error := none
  , conversation := none
  , tool := none }

/-- Capture enabled at a one-half sampling rate (C1 fixture). -/
def cfgSampleHalf : OtelConfig :=
  { baseConfig with captureContent := true, sampleContentRate := some (1/2) }

/-- Record with id `abc` (C1 fixture). -/
def recIdAbc : EvalResult := { baseEvalRecord with id := "abc" }

/-- Capture enabled with a message-content hook that throws (C2 fixture). -/
def cfgHookThrows : OtelConfig :=
  { baseConfig with
    captureContent := true,
    redactMessageContent := some (fun _ _ => .error "hook failure") }

/-- Raw record with a two-message conversation (C2 fixture). -/
def rawConvTwoMsgs : RawEvalResult :=
  { baseRawRecord with conversation := some { id := "c1", messages := [msgU "hello", msgU "world"] } }

/-- Capture enabled with a message-content hook that redacts to null (C3 fixture). -/
def cfgNullMsgHook : OtelConfig :=
  { baseConfig with
    captureContent := true,
    redactMessageContent := some (fun _ _ => .ok none) }

/-- Capture enabled with a tool-arguments hook that redacts to null (C3 fixture). -/
def cfgNullToolHook : OtelConfig :=
  { baseConfig with
    captureContent := true,
    redactToolArguments := some (fun _ _ _ => .ok none) }

/-- A structured tool call (C3 fixture). -/
def toolCallA : ToolCall :=
  { id := "t1", type := "function"
  , function := { name := "f", argumentsVal := .argObj (.jobj [("long", .jstr "xxxx")]) } }

/-- Record whose single choice carries one tool call (C3 fixture). -/
def recToolChoice : EvalResult :=
  { baseEvalRecord with
    operation := "execute_tool"
  , response :=
    { id := none, model := none, finishReasons := none
    , choices := some (
      [ { index := 0
        , finishReason := "stop"
        , message :=
          { role := "assistant", content := some (.text "ok")
          , toolCallId := none, toolCalls := some [toolCallA] } } ]) } }

/-- Minimal Ollama request (C5 fixture). -/
def ollamaReqPlain : OllamaRequest :=
  { model := "llama3", messages := none, prompt := none, temperature := none
  , top_k := none, top_p := none, num_predict := none, stop := none, seed := none }

/-- Ollama response carrying no token counts (C5 fixture). -/
def ollamaResNoTokens : OllamaResponse :=
  { model := "llama3", created_at := "t"
  , message := { role := "assistant", content := "hi", tool_calls := none }
  , done_reason := some "stop", done := true
  , total_duration := some 1000000000, load_duration := none
  , prompt_eval_count := none, prompt_eval_duration := none
  , eval_count := none, eval_duration := none }

/-- Empty Ollama conversion options. -/
def ollamaOptsNone : OllamaConversionOptions :=
  { evalId := none, conversationId := none, conversationMessages := none, toolExecution := none }

/-- Minimal Cohere request (C5 fixture). -/
def cohereReqPlain : CohereRequest :=
  { model := "command", messages := none, temperature := none, max_tokens := none
  , p := none, k := none, stop_sequences := none, seed := none }

/-- Cohere response with no billing information (C5 fixture). -/
def cohereResNoBilled : CohereResponse :=
  { id := "cid", model := "command", text := "hi", finish_reason := some "COMPLETE", meta := none }

/-- An OpenAI-shaped tool call whose serialized arguments are not valid JSON
(C6 fixture). -/
def oaBadToolCall : OAToolCallStr :=
  { id := "t1", type := "function", fnName := "f", fnArguments := "not json" }

/-- Minimal OpenAI-compatible request (C6 fixture). -/
def oaCompatReqPlain : OpenAICompatibleRequest :=
  { model := "m", messages := none, temperature := none, max_tokens := none, top_p := none
  , frequency_penalty := none, presence_penalty := none, stop := none, seed := none, n := none }

/-- OpenAI-compatible response whose tool call carries malformed JSON
arguments (C6 fixture). -/
def oaCompatResBad : OpenAICompatibleResponse :=
  { id := "r", object := "chat.completion", created := 0, model := "m"
  , choices := [
      { index := 0
      , message := { role := "assistant", content := some "x", tool_calls := some [oaBadToolCall] }
      , finish_reason := "tool_calls" } ]
  , usage := { prompt_tokens := 1, completion_tokens := 2, total_tokens := 3 } }

/-- Minimal OpenAI native chat request (C6 fixture). -/
def oaChatReqPlain : OpenAIChatRequest :=
  { model := "m", messages := [], temperature := none, max_tokens := none, top_p := none
  , frequency_penalty := none, presence_penalty := none, stop := none, seed := none, n := none }

/-- OpenAI native response whose tool call carries malformed JSON arguments
(C6 fixture). -/
def oaChatResBad : OpenAIChatResponse :=
  { id := "r", object := "chat.completion", created := 0, model := "m", system_fingerprint := none
  , choices := [
      { index := 0
      , message := { role := "assistant", content := some "x", tool_calls := some [oaBadToolCall] }
      , finish_reason := "tool_calls" } ]
  , usage := none }

/-- Capture enabled with an event cap of two (C7 fixture). -/
def cfgCap2 : OtelConfig :=
  { baseConfig with captureContent := true, maxEventsPerSpan := some 2 }

/-- Record with a three-message conversation (C7 fixture). -/
def recThreeMsgs : EvalResult :=
  { baseEvalRecord with
    conversation := some { id := "c1", messages := [msgU "m1", msgU "m2", msgU "m3"] } }

/-- A four-key metric attribute allowlist (C8 fixture). -/
def metricAllow4 : List String :=
  ["gen_ai.system", "gen_ai.request.model", "gen_ai.operation.name", "deployment.environment"]

/-- Allowlist of four plus an attribute cap of three (C8 fixture). -/
def cfgMetricCap : OtelConfig :=
  { baseConfig with metricAttributeAllowlist := some metricAllow4, maxMetricAttributes := some 3 }

/-- Ten candidate metric attributes in scattered insertion order, four of
which are allowlisted (C8 fixture). -/
def attrs10 : List (String × MetricVal) :=
  [ ("gen_ai.token.type", .s "input")
  , ("gen_ai.system", .s "openai")
  , ("error.type", .s "timeout")
  , ("gen_ai.request.model", .s "gpt-4")
  , ("gen_ai.response.model", .s "gpt-4")
  , ("deployment.environment", .s "prod")
  , ("gen_ai.provider.name", .s "openai")
  , ("gen_ai.operation.name", .s "chat")
  , ("custom.a", .n 1)
  , ("custom.b", .n 2) ]

/-- Raw record that is valid except for a duration of exactly zero (C9
fixture). -/
def rawDurZero : RawEvalResult :=
  { baseRawRecord with
    performance := some (
      { duration := some 0, timeToFirstToken := none, timePerOutputToken := none }) }

/-- Raw record missing the required model name (C9 fixture). -/
def rawNoModel : RawEvalResult := { baseRawRecord with model := none }

/-- An empty-object payload: no detection heuristic matches it (C10 fixture). -/
def payloadEmptyObj : JsVal := .jobj []

/-- The original (pre-redaction) string of a content value: the raw text, or
the serialized form of structured content — exactly the value the source
hands to the redaction hook and, on a null result, to the fingerprint. -/
def contentOriginal : ContentV → String
  | .text s => s
  | .struct j => jsonStringify j

/-- A simple assistant choice fixture (C3 witness). -/
def choiceOk : Choice :=
  { index := 0, finishReason := "stop"
  , message :=
    { role := "assistant", content := some (.text "ok")
    , toolCallId := none, toolCalls := none } }

/-- The key ordering as a relation on strings. -/
def strRel : String → String → Prop := fun a b => strLe a b = true

instance : DecidableRel strRel := fun a b => by
  unfold strRel; infer_instance

/-! ## Theorems -/

/-- The hash accumulator stays below `2^32` through the fold. -/
theorem djb2_foldl_lt (l : List Char) (h : ℕ) (hh : h < 4294967296) :
    l.foldl (fun acc c => djb2Step acc c.toNat) h < 4294967296 := by
  induction l generalizing h with
  | nil => exact hh
  | cons c rest ih => exact ih _ (Nat.mod_lt _ (by norm_num))

/-- The final hash value is an unsigned 32-bit quantity. -/
theorem djb2Hash_lt (s : String) : djb2Hash s < 4294967296 :=
  djb2_foldl_lt s.data 5381 (by norm_num)

/-- The normalized hash is non-negative. -/
theorem hashNorm_nonneg (s : String) : 0 ≤ hashNorm s :=
  div_nonneg (Nat.cast_nonneg _) (by norm_num)

/-- The normalized hash is strictly below one. -/
theorem hashNorm_lt_one (s : String) : hashNorm s < 1 := by
  unfold hashNorm
  rw [div_lt_one (by norm_num)]
  exact_mod_cast djb2Hash_lt s

/-- C1: with content capture enabled and no custom sampler, the per-record
sampling decision short-circuits to `true` for every rate ≥ 1 and to `false`
for every rate ≤ 0; for every intermediate rate it equals the comparison of
the deterministic multiplicative hash of `record.id`, normalized to `[0,1)`,
against the rate — so for a fixed id the decision is identical every time it
is recomputed. -/
theorem c1_shouldCaptureContent_sampling (cfg : OtelConfig) (r : EvalResult)
    (hcap : cfg.captureContent = true) (hsam : cfg.contentSampler = none) :
    (1 ≤ cfg.sampleContentRate.getD 1 → shouldCaptureContent cfg r = true) ∧
    (cfg.sampleContentRate.getD 1 ≤ 0 → shouldCaptureContent cfg r = false) ∧
    (0 < cfg.sampleContentRate.getD 1 → cfg.sampleContentRate.getD 1 < 1 →
      shouldCaptureContent cfg r = decide (hashNorm r.id ≤ cfg.sampleContentRate.getD 1)) ∧
    (0 ≤ hashNorm r.id ∧ hashNorm r.id < 1) ∧
    (∀ r2 : EvalResult, r2.id = r.id →
      shouldCaptureContent cfg r2 = shouldCaptureContent cfg r) := by
  refine ⟨?_, ?_, ?_, ⟨hashNorm_nonneg _, hashNorm_lt_one _⟩, ?_⟩
  · intro h
    simp [shouldCaptureContent, hcap, hsam, if_pos h]
  · intro h
    have h1 : ¬(1 ≤ cfg.sampleContentRate.getD 1) :=
      not_le.mpr (lt_of_le_of_lt h zero_lt_one)
    simp [shouldCaptureContent, hcap, hsam, if_neg h1, if_pos h]
  · intro h0 h1
    simp [shouldCaptureContent, hcap, hsam, if_neg (not_le.mpr h1), if_neg (not_le.mpr h0)]
  · intro r2 h
    simp [shouldCaptureContent, hcap, hsam, h]

/-- C1 witness: at rate one-half with id `abc` the decision follows the hash
comparison and evaluates to `true`. -/
theorem c1_witness :
    cfgSampleHalf.captureContent = true ∧
    0 < cfgSampleHalf.sampleContentRate.getD 1 ∧
    cfgSampleHalf.sampleContentRate.getD 1 < 1 ∧
    shouldCaptureContent cfgSampleHalf recIdAbc
      = decide (hashNorm recIdAbc.id ≤ cfgSampleHalf.sampleContentRate.getD 1) ∧
    shouldCaptureContent cfgSampleHalf recIdAbc = true :=
  ⟨rfl, by norm_num [cfgSampleHalf, baseConfig], by norm_num [cfgSampleHalf, baseConfig],
    (c1_shouldCaptureContent_sampling cfgSampleHalf recIdAbc rfl rfl).2.2.1
      (by norm_num [cfgSampleHalf, baseConfig]) (by norm_num [cfgSampleHalf, baseConfig]),
    by
      have heq := (c1_shouldCaptureContent_sampling cfgSampleHalf recIdAbc rfl rfl).2.2.1
        (by norm_num [cfgSampleHalf, baseConfig]) (by norm_num [cfgSampleHalf, baseConfig])
      rw [heq]
      have hd : djb2Hash "abc" = 193485963 := by decide
      have hle : hashNorm recIdAbc.id ≤ cfgSampleHalf.sampleContentRate.getD 1 := by
        show hashNorm "abc" ≤ _
        unfold hashNorm
        rw [hd]
        norm_num [cfgSampleHalf, baseConfig]
      simp [hle]⟩

/-- C4: `detectProvider` is total over arbitrary runtime values — it always
returns one of the eight tags and never throws (missing fields read as
non-matching) — and it equals the first-match-wins evaluation of the spec's
fixed priority list of heuristics, so an earlier heuristic always wins over a
later one that also matches. -/
theorem c4_detectProvider_total_ordered (request response : JsVal) :
    detectProvider request response ∈ allProviderModes ∧
    detectProvider request response = detectSpecOrdered request response := by
  constructor
  · unfold detectProvider allProviderModes
    split_ifs <;> simp
  · unfold detectProvider detectSpecOrdered providerHeuristics
    simp only [List.findSome?]
    split_ifs <;> simp_all [List.findSome?]

/-- C2 (divergence witness): with content capture enabled and a
message-content redaction hook that throws, processing a valid record with a
two-message conversation does not fail closed — the exception propagates out
of `convertEvalResult`, the record's processing crashes, and no events (with
or without fingerprints) are produced for any field of the record. -/
theorem c2_throwing_hook_crashes_record :
    convertEvalResult cfgHookThrows 0 emptyCounters rawConvTwoMsgs = .error "hook failure" := by
  rfl

/-- C6 (divergence witness): an OpenAI-shaped payload whose tool call carries
a function-arguments string that is not valid JSON makes both OpenAI
normalizers throw (`JSON.parse` is unguarded), aborting conversion of the
whole record instead of degrading the offending field to an opaque string. -/
theorem c6_invalid_tool_args_abort_conversion :
    convertOpenAICompatibleToEval2Otel oaCompatReqPlain oaCompatResBad 5 6 noOAOptions
        = .error "SyntaxError: Unexpected token in JSON" ∧
    convertOpenAIChatToEval2Otel oaChatReqPlain oaChatResBad 5 6 noOAOptions
        = .error "SyntaxError: Unexpected token in JSON" := by
  exact ⟨rfl, rfl⟩

/-- C5 (counterexample): an Ollama response with no token counts and a Cohere
response with no billing units normalize to a `usage` whose derived
`totalTokens` is present and zero — not absent. -/
theorem c5_counterexample_totalTokens_coerced :
    (convertOllamaToEval2Otel ollamaReqPlain ollamaResNoTokens 5 ollamaOptsNone).usage.inputTokens
        = none ∧
    (convertOllamaToEval2Otel ollamaReqPlain ollamaResNoTokens 5 ollamaOptsNone).usage.outputTokens
        = none ∧
    (convertOllamaToEval2Otel ollamaReqPlain ollamaResNoTokens 5 ollamaOptsNone).usage.totalTokens
        = some 0 ∧
    (convertCohereToEval2Otel cohereReqPlain cohereResNoBilled 5 6 noOAOptions).usage.inputTokens
        = none ∧
    (convertCohereToEval2Otel cohereReqPlain cohereResNoBilled 5 6 noOAOptions).usage.outputTokens
        = none ∧
    (convertCohereToEval2Otel cohereReqPlain cohereResNoBilled 5 6 noOAOptions).usage.totalTokens
        = some 0 := by
  refine ⟨rfl, rfl, ?_, rfl, rfl, ?_⟩ <;> norm_num [convertOllamaToEval2Otel,
    convertCohereToEval2Otel, ollamaResNoTokens, cohereResNoBilled]

/-- C5 (amended): the optional input/output token counts map absent payload
fields to absent canonical fields, but the derived `totalTokens` does not
remain absent — when the counts are missing it is coerced to the
zero-defaulted sum (`some 0`), in both the Ollama and the Cohere
normalizers. -/
theorem c5_usage_absent_field_mapping (req : OllamaRequest) (res : OllamaResponse)
    (st : ℚ) (opts : OllamaConversionOptions)
    (creq : CohereRequest) (cres : CohereResponse) (st2 et2 : ℚ)
    (copts : OAConversionOptions) :
    ((convertOllamaToEval2Otel req res st opts).usage.inputTokens = res.prompt_eval_count) ∧
    ((convertOllamaToEval2Otel req res st opts).usage.outputTokens = res.eval_count) ∧
    (res.prompt_eval_count = none → res.eval_count = none →
      (convertOllamaToEval2Otel req res st opts).usage.totalTokens = some 0) ∧
    (cres.meta = none →
      (convertCohereToEval2Otel creq cres st2 et2 copts).usage.inputTokens = none ∧
      (convertCohereToEval2Otel creq cres st2 et2 copts).usage.outputTokens = none ∧
      (convertCohereToEval2Otel creq cres st2 et2 copts).usage.totalTokens = some 0) := by
  refine ⟨rfl, rfl, ?_, ?_⟩
  · intro h1 h2
    simp [convertOllamaToEval2Otel, h1, h2]
  · intro h
    refine ⟨?_, ?_, ?_⟩ <;> simp [convertCohereToEval2Otel, h]

/-- C5 witness: the amended mapping at the concrete token-free fixtures. -/
theorem c5_witness :
    ollamaResNoTokens.prompt_eval_count = none ∧
    cohereResNoBilled.meta = none ∧
    (convertOllamaToEval2Otel ollamaReqPlain ollamaResNoTokens 5 ollamaOptsNone).usage.totalTokens
        = some 0 ∧
    (convertCohereToEval2Otel cohereReqPlain cohereResNoBilled 5 6 noOAOptions).usage.totalTokens
        = some 0 :=
  ⟨rfl, rfl,
    (c5_usage_absent_field_mapping ollamaReqPlain ollamaResNoTokens 5 ollamaOptsNone
      cohereReqPlain cohereResNoBilled 5 6 noOAOptions).2.2.1 rfl rfl,
    ((c5_usage_absent_field_mapping ollamaReqPlain ollamaResNoTokens 5 ollamaOptsNone
      cohereReqPlain cohereResNoBilled 5 6 noOAOptions).2.2.2 rfl).2.2⟩

/-- C3 (counterexample): with a tool-arguments hook that returns null, the
emitted `gen_ai.tool.message` event still carries a content value — the
placeholder string `'{}'` under `gen_ai.tool.arguments` — and carries no
fingerprint attribute, so tool-call arguments do not follow the
fingerprint-on-null rule that message and choice content follow. -/
theorem c3_counterexample_tool_arguments :
    ∃ st, addChoiceEvents cfgNullToolHook recToolChoice 0 ([], emptyCounters) = .ok st ∧
      st.1.map (fun e => (e.name, e.attrs.lookup ATTR_TOOL_ARGUMENTS,
        e.attrs.lookup ATTR_CONTENT_SHA256))
        = [ ("gen_ai.tool.message", some (.s braces), none)
          , ("gen_ai.assistant.message", none, none) ] := by
  refine ⟨_, rfl, ?_⟩
  decide

/-- C3 (amended): for conversation-message content and response-choice
content, a redaction hook returning null yields an event attribute set that
carries no content value — neither the text key nor the JSON key — and
carries the fingerprint of the original pre-redaction value; tool-call
arguments are exempt (see the counterexample: they degrade to the `'{}'`
placeholder without a fingerprint). -/
theorem c3_null_redaction_fingerprints_content (cfg : OtelConfig) (sys : Option String)
    (msg : Message) (idx : ℕ) (c : ContentV) (choice : Choice) (c2 : ContentV)
    (hmc : msg.content = some c)
    (hhook : redactMessageContentMethod cfg (contentOriginal c) msg.role = .ok none)
    (hcc : choice.message.content = some c2)
    (hhook2 : redactMessageContentMethod cfg (contentOriginal c2) choice.message.role = .ok none) :
    (∃ attrs, messageEventAttrs cfg sys msg idx = .ok attrs ∧
      attrs.lookup ATTR_CONTENT_SHA256 = some (.s (hashContent (contentOriginal c))) ∧
      attrs.lookup ATTR_MESSAGE_CONTENT = none ∧
      attrs.lookup ATTR_MESSAGE_CONTENT_JSON = none) ∧
    (∃ attrs, choiceEventAttrs cfg sys choice = .ok attrs ∧
      attrs.lookup ATTR_CONTENT_SHA256 = some (.s (hashContent (contentOriginal c2))) ∧
      attrs.lookup ATTR_MESSAGE_CONTENT = none ∧
      attrs.lookup ATTR_MESSAGE_CONTENT_JSON = none) := by
  constructor
  · have hca : messageContentAttrs cfg c msg.role
        = .ok [(ATTR_CONTENT_SHA256, .s (hashContent (contentOriginal c)))] := by
      cases c with
      | text s =>
        simp only [messageContentAttrs, contentOriginal] at hhook ⊢
        rw [hhook]
        rfl
      | struct j =>
        simp only [messageContentAttrs, contentOriginal] at hhook ⊢
        rw [hhook]
        rfl
    cases htc : msg.toolCallId with
    | none =>
      have heq : messageEventAttrs cfg sys msg idx = .ok (
          [ ("gen_ai.system", .s (sys.getD "unknown"))
          , (ATTR_PROVIDER_NAME, .s ((getProviderName sys).getD "unknown"))
          , (ATTR_MESSAGE_ROLE, .s msg.role)
          , (ATTR_MESSAGE_INDEX, .n idx)
          , (ATTR_CONTENT_SHA256, .s (hashContent (contentOriginal c))) ]) := by
        simp only [messageEventAttrs, hmc, hca, htc]
        rfl
      refine ⟨_, heq, ?_, ?_, ?_⟩ <;>
        simp [List.lookup, ATTR_CONTENT_SHA256, ATTR_MESSAGE_CONTENT,
          ATTR_MESSAGE_CONTENT_JSON, ATTR_PROVIDER_NAME, ATTR_MESSAGE_ROLE,
          ATTR_MESSAGE_INDEX]
    | some tid =>
      have heq : messageEventAttrs cfg sys msg idx = .ok (
          [ ("gen_ai.system", .s (sys.getD "unknown"))
          , (ATTR_PROVIDER_NAME, .s ((getProviderName sys).getD "unknown"))
          , (ATTR_MESSAGE_ROLE, .s msg.role)
          , (ATTR_MESSAGE_INDEX, .n idx)
          , (ATTR_CONTENT_SHA256, .s (hashContent (contentOriginal c)))
          , (ATTR_TOOL_CALL_ID, .s tid) ]) := by
        simp only [messageEventAttrs, hmc, hca, htc]
        rfl
      refine ⟨_, heq, ?_, ?_, ?_⟩ <;>
        simp [List.lookup, ATTR_CONTENT_SHA256, ATTR_MESSAGE_CONTENT,
          ATTR_MESSAGE_CONTENT_JSON, ATTR_PROVIDER_NAME, ATTR_MESSAGE_ROLE,
          ATTR_MESSAGE_INDEX, ATTR_TOOL_CALL_ID]
  · have hca : messageContentAttrs cfg c2 choice.message.role
        = .ok [(ATTR_CONTENT_SHA256, .s (hashContent (contentOriginal c2)))] := by
      cases c2 with
      | text s =>
        simp only [messageContentAttrs, contentOriginal] at hhook2 ⊢
        rw [hhook2]
        rfl
      | struct j =>
        simp only [messageContentAttrs, contentOriginal] at hhook2 ⊢
        rw [hhook2]
        rfl
    have heq : choiceEventAttrs cfg sys choice = .ok (
        [ ("gen_ai.system", .s (sys.getD "unknown"))
        , (ATTR_PROVIDER_NAME, .s ((getProviderName sys).getD "unknown"))
        , (ATTR_RESPONSE_CHOICE_INDEX, .n choice.index)
        , (ATTR_RESPONSE_FINISH_REASON, .s choice.finishReason)
        , (ATTR_MESSAGE_ROLE, .s choice.message.role)
        , (ATTR_CONTENT_SHA256, .s (hashContent (contentOriginal c2))) ]) := by
      simp only [choiceEventAttrs, hcc, hca]
      rfl
    refine ⟨_, heq, ?_, ?_, ?_⟩ <;>
      simp [List.lookup, ATTR_CONTENT_SHA256, ATTR_MESSAGE_CONTENT,
        ATTR_MESSAGE_CONTENT_JSON, ATTR_PROVIDER_NAME, ATTR_RESPONSE_CHOICE_INDEX,
        ATTR_RESPONSE_FINISH_REASON, ATTR_MESSAGE_ROLE]

/-- C3 witness: the fingerprint-on-null behavior at a concrete message and
choice under a hook that always returns null. -/
theorem c3_witness :
    redactMessageContentMethod cfgNullMsgHook "secret" "user" = .ok none ∧
    (∃ attrs, messageEventAttrs cfgNullMsgHook (some "openai") (msgU "secret") 0 = .ok attrs ∧
      attrs.lookup ATTR_CONTENT_SHA256 = some (.s (hashContent "secret")) ∧
      attrs.lookup ATTR_MESSAGE_CONTENT = none ∧
      attrs.lookup ATTR_MESSAGE_CONTENT_JSON = none) ∧
    (∃ attrs, choiceEventAttrs cfgNullMsgHook (some "openai") choiceOk = .ok attrs ∧
      attrs.lookup ATTR_CONTENT_SHA256 = some (.s (hashContent "ok")) ∧
      attrs.lookup ATTR_MESSAGE_CONTENT = none ∧
      attrs.lookup ATTR_MESSAGE_CONTENT_JSON = none) :=
  ⟨rfl,
    (c3_null_redaction_fingerprints_content cfgNullMsgHook (some "openai") (msgU "secret") 0
      (.text "secret") choiceOk (.text "ok") rfl rfl rfl rfl).1,
    (c3_null_redaction_fingerprints_content cfgNullMsgHook (some "openai") (msgU "secret") 0
      (.text "secret") choiceOk (.text "ok") rfl rfl rfl rfl).2⟩

/-- With no redaction hooks configured, building a message event's attributes
cannot throw. -/
theorem messageEventAttrs_ok_of_no_hooks (cfg : OtelConfig) (sys : Option String)
    (msg : Message) (idx : ℕ)
    (h1 : cfg.redactMessageContent = none) (h2 : cfg.redact = none) :
    ∃ attrs, messageEventAttrs cfg sys msg idx = .ok attrs := by
  cases hc : msg.content with
  | none => exact ⟨_, by simp [messageEventAttrs, hc]; rfl⟩
  | some c =>
    cases c <;>
      exact ⟨_, by
        simp [messageEventAttrs, hc, messageContentAttrs, redactMessageContentMethod,
          redactMethod, h1, h2]; rfl⟩

/-- The conversation-event loop under a positive cap `k`: starting from a
per-span count `c`, it cannot throw when no hooks are configured, it
materializes exactly `min msgs.length (k - c)` further events, advances only
this span's counter by that amount, and leaves every other span's counter
untouched. -/
theorem convLoop_count (cfg : OtelConfig) (sys : Option String) (span : SpanId) (k : ℕ)
    (hcap : cfg.maxEventsPerSpan = some (k : ℚ)) (hk : 0 < k)
    (h1 : cfg.redactMessageContent = none) (h2 : cfg.redact = none) :
    ∀ (msgs : List Message) (idx : ℕ) (events : List SpanEvent) (counters : Counters) (c : ℕ),
      (counters span).getD 0 = c →
      ∃ events2 counters2,
        convMessagesLoop cfg sys span msgs idx (events, counters) = .ok (events2, counters2) ∧
        events2.length = events.length + min msgs.length (k - c) ∧
        (counters2 span).getD 0 = c + min msgs.length (k - c) ∧
        ∀ s2, s2 ≠ span → counters2 s2 = counters s2 := by
  intro msgs
  induction msgs with
  | nil =>
    intro idx events counters c hc
    exact ⟨events, counters, rfl, by simp, by simpa using hc, fun _ _ => rfl⟩
  | cons m rest ih =>
    intro idx events counters c hc
    obtain ⟨attrs, hattrs⟩ := messageEventAttrs_ok_of_no_hooks cfg sys m idx h1 h2
    have hkq : ¬((k : ℚ) ≤ 0) := not_le.mpr (by exact_mod_cast hk)
    by_cases hck : k ≤ c
    · have hadm : canAddEvent cfg counters span = (false, counters) := by
        simp only [canAddEvent, hcap]
        rw [if_neg hkq, hc, if_pos (by exact_mod_cast hck)]
      obtain ⟨e2, c2, heq, hlen, hcnt, hiso⟩ := ih (idx + 1) events counters c hc
      have hzero : k - c = 0 := by omega
      refine ⟨e2, c2, ?_, ?_, ?_, hiso⟩
      · simp only [convMessagesLoop]
        rw [hattrs, hadm]
        exact heq
      · rw [hlen, hzero]
        simp
      · rw [hcnt, hzero]
        simp
    · have hadm : canAddEvent cfg counters span
          = (true, fun s => if s = span then some (c + 1) else counters s) := by
        simp only [canAddEvent, hcap]
        rw [if_neg hkq, hc, if_neg (by exact_mod_cast hck)]
      have hc2 : ((fun s => if s = span then some (c + 1) else counters s) span).getD 0
          = c + 1 := by simp
      obtain ⟨e2, c2, heq, hlen, hcnt, hiso⟩ :=
        ih (idx + 1) (events ++ [⟨messageEventName m.role, attrs⟩])
          (fun s => if s = span then some (c + 1) else counters s) (c + 1) hc2
      have hmin : min (rest.length + 1) (k - c) = min rest.length (k - (c + 1)) + 1 := by
        omega
      refine ⟨e2, c2, ?_, ?_, ?_, ?_⟩
      · simp only [convMessagesLoop]
        rw [hattrs, hadm]
        exact heq
      · have h3 : (events ++ [(⟨messageEventName m.role, attrs⟩ : SpanEvent)]).length
            = events.length + 1 := by simp
        rw [hlen, h3, List.length_cons, hmin]
        omega
      · rw [hcnt, List.length_cons, hmin]
        omega
      · intro s2 hs2
        rw [hiso s2 hs2]
        simp [hs2]

/-- C7: with a configured event cap `k > 0` and a record offering at least
`k` candidate events, exactly `k` events are materialized on that record's
span — later candidates are still processed but not materialized — and the
guard's counter is keyed by the span, so processing this record leaves every
other span's event budget untouched. -/
theorem c7_event_cap_exact (cfg : OtelConfig) (v : EvalResult) (span : SpanId)
    (counters : Counters) (k : ℕ) (conv : Conversation)
    (hcap : cfg.maxEventsPerSpan = some (k : ℚ)) (hk : 0 < k)
    (hcapture : cfg.captureContent = true) (hsam : cfg.contentSampler = none)
    (hrate : cfg.sampleContentRate = none) (hemit : cfg.emitOperationalMetadata ≠ some false)
    (h1 : cfg.redactMessageContent = none) (h2 : cfg.redact = none)
    (hconv : v.conversation = some conv) (hnk : k ≤ conv.messages.length)
    (hchoices : v.response.choices = none)
    (hfresh : counters span = none) :
    ∃ events counters2,
      emitRecordEvents cfg v span counters = .ok (events, counters2) ∧
      events.length = k ∧
      ∀ s2, s2 ≠ span → counters2 s2 = counters s2 := by
  have hcap1 : shouldCaptureContent cfg v = true := by
    simp [shouldCaptureContent, hcapture, hsam, hrate]
  obtain ⟨e2, c2, heq, hlen, hcnt, hiso⟩ :=
    convLoop_count cfg v.system span k hcap hk h1 h2 conv.messages 0 [] counters 0
      (by simp [hfresh])
  refine ⟨e2, c2, ?_, ?_, hiso⟩
  · simp only [emitRecordEvents, addConversationEvents, addChoiceEvents, hconv, hchoices,
      hcap1, Option.isSome_some, Bool.true_and, Bool.and_true]
    have hd : decide (cfg.emitOperationalMetadata ≠ some false) = true :=
      decide_eq_true hemit
    simp only [hd, Bool.and_true]
    rw [heq]
    rfl
  · rw [hlen]
    simp
    omega

/-- C7 witness: cap two, three candidate messages — exactly two events, and a
foreign span's counter entry is untouched. -/
theorem c7_witness :
    ∃ events counters2,
      emitRecordEvents cfgCap2 recThreeMsgs 0 emptyCounters = .ok (events, counters2) ∧
      events.length = 2 ∧
      counters2 5 = none := by
  obtain ⟨events, counters2, heq, hlen, hiso⟩ :=
    c7_event_cap_exact cfgCap2 recThreeMsgs 0 emptyCounters 2
      { id := "c1", messages := [msgU "m1", msgU "m2", msgU "m3"] }
      (by norm_num [cfgCap2, baseConfig]) (by norm_num) rfl rfl rfl (by decide)
      rfl rfl rfl (by norm_num) rfl rfl
  exact ⟨events, counters2, heq, hlen, (hiso 5 (by norm_num)).trans rfl⟩

/-- Characters with equal code points are equal. -/
theorem charToNat_inj {a b : Char} (h : a.toNat = b.toNat) : a = b := by
  cases a with
  | mk av ah =>
  cases b with
  | mk bv bh =>
  congr 1
  cases av
  cases bv
  congr 1
  exact BitVec.eq_of_toNat_eq h

/-- The code-point comparison is total. -/
theorem charListLe_total : ∀ a b : List Char, charListLe a b = true ∨ charListLe b a = true := by
  intro a
  induction a with
  | nil => intro b; left; rfl
  | cons x xs ih =>
    intro b
    cases b with
    | nil => right; rfl
    | cons y ys =>
      rcases Nat.lt_trichotomy x.toNat y.toNat with h | h | h
      · left; simp [charListLe, h]
      · have h1 : ¬ x.toNat < y.toNat := by omega
        have h2 : ¬ y.toNat < x.toNat := by omega
        rcases ih ys with h3 | h3
        · left; simp [charListLe, h1, h2, h3]
        · right; simp [charListLe, h1, h2, h3]
      · right; simp [charListLe, h]

/-- The code-point comparison is transitive. -/
theorem charListLe_trans :
    ∀ a b c : List Char, charListLe a b = true → charListLe b c = true →
      charListLe a c = true := by
  intro a
  induction a with
  | nil => intro b c _ _; rfl
  | cons x xs ih =>
    intro b c hab hbc
    cases b with
    | nil => simp [charListLe] at hab
    | cons y ys =>
      cases c with
      | nil => simp [charListLe] at hbc
      | cons z zs =>
        simp only [charListLe] at hab hbc ⊢
        by_cases hxy : x.toNat < y.toNat
        · by_cases hyz : y.toNat < z.toNat
          · rw [if_pos (by omega)]
          · by_cases hzy : z.toNat < y.toNat
            · rw [if_neg hyz, if_pos hzy] at hbc
              exact absurd hbc (by simp)
            · rw [if_pos (by omega)]
        · by_cases hyx : y.toNat < x.toNat
          · rw [if_neg hxy, if_pos hyx] at hab
            exact absurd hab (by simp)
          · rw [if_neg hxy, if_neg hyx] at hab
            by_cases hyz : y.toNat < z.toNat
            · rw [if_pos (by omega)]
            · by_cases hzy : z.toNat < y.toNat
              · rw [if_neg hyz, if_pos hzy] at hbc
                exact absurd hbc (by simp)
              · rw [if_neg hyz, if_neg hzy] at hbc
                rw [if_neg (by omega), if_neg (by omega)]
                exact ih ys zs hab hbc

/-- The code-point comparison is antisymmetric. -/
theorem charListLe_antisymm :
    ∀ a b : List Char, charListLe a b = true → charListLe b a = true → a = b := by
  intro a
  induction a with
  | nil =>
    intro b hab hba
    cases b with
    | nil => rfl
    | cons y ys => simp [charListLe] at hba
  | cons x xs ih =>
    intro b hab hba
    cases b with
    | nil => simp [charListLe] at hab
    | cons y ys =>
      simp only [charListLe] at hab hba
      by_cases h1 : x.toNat < y.toNat
      · rw [if_neg (by omega), if_pos h1] at hba
        exact absurd hba (by simp)
      · by_cases h2 : y.toNat < x.toNat
        · rw [if_neg h1, if_pos h2] at hab
          exact absurd hab (by simp)
        · rw [if_neg h1, if_neg h2] at hab
          rw [if_neg h2, if_neg h1] at hba
          have hxy : x = y := charToNat_inj (by omega)
          rw [hxy, ih ys hab hba]

/-- `strRel` is total. -/
theorem strRel_total (a b : String) : strRel a b ∨ strRel b a :=
  charListLe_total a.data b.data

/-- `strRel` is transitive. -/
theorem strRel_trans (a b c : String) (h1 : strRel a b) (h2 : strRel b c) : strRel a c :=
  charListLe_trans a.data b.data c.data h1 h2

/-- `strRel` is antisymmetric. -/
theorem strRel_antisymm (a b : String) (h1 : strRel a b) (h2 : strRel b a) : a = b := by
  cases a with
  | mk la =>
  cases b with
  | mk lb =>
  congr 1
  exact charListLe_antisymm la lb h1 h2

/-- Keys of a key-filtered entry list are the filtered keys. -/
theorem map_fst_filter (al : List String) (l : List (String × MetricVal)) :
    (l.filter (fun kv => al.contains kv.1)).map Prod.fst
      = (l.map Prod.fst).filter (fun k => al.contains k) := by
  induction l with
  | nil => rfl
  | cons kv rest ih =>
    by_cases h : kv.1 ∈ al <;> simp [List.filter_cons, h] <;> simpa using ih

/-- Sorting entries by key then projecting keys equals projecting keys then
sorting. -/
theorem sortPairs_map_fst (l : List (String × MetricVal)) :
    (List.insertionSort entryLe l).map Prod.fst
      = List.insertionSort strRel (l.map Prod.fst) := by
  haveI i1 : IsTotal (String × MetricVal) entryLe :=
    ⟨fun a b => charListLe_total a.1.data b.1.data⟩
  haveI i2 : IsTrans (String × MetricVal) entryLe :=
    ⟨fun a b c h1 h2 => charListLe_trans a.1.data b.1.data c.1.data h1 h2⟩
  haveI i3 : IsTotal String strRel := ⟨strRel_total⟩
  haveI i4 : IsTrans String strRel := ⟨strRel_trans⟩
  haveI i5 : IsAntisymm String strRel := ⟨strRel_antisymm⟩
  have hperm1 : ((List.insertionSort entryLe l).map Prod.fst).Perm (l.map Prod.fst) :=
    (List.perm_insertionSort entryLe l).map Prod.fst
  have hperm2 : (List.insertionSort strRel (l.map Prod.fst)).Perm (l.map Prod.fst) :=
    List.perm_insertionSort strRel (l.map Prod.fst)
  have hsorted1 : List.Sorted strRel ((List.insertionSort entryLe l).map Prod.fst) := by
    have hs := List.sorted_insertionSort entryLe l
    exact List.Pairwise.map Prod.fst (fun a b h => h) hs
  have hsorted2 : List.Sorted strRel (List.insertionSort strRel (l.map Prod.fst)) :=
    List.sorted_insertionSort strRel (l.map Prod.fst)
  exact List.eq_of_perm_of_sorted (hperm1.trans hperm2.symm) hsorted1 hsorted2

/-- Floor of a natural-number rational is itself. -/
theorem ratFloor_natCast_toNat (n : ℕ) : ((n : ℚ)).floor.toNat = n := by
  have h : ((n : ℚ)).floor = ⌊(n : ℚ)⌋ := rfl
  rw [h, Int.floor_natCast]
  exact Int.toNat_natCast n

/-- C8: with a non-empty allowlist and a positive cap `c`, the metric
attribute guard first drops every key outside the allowlist and then keeps
exactly the `min c remaining` keys that come first in the lexicographic order
of the surviving keys — independent of the map's insertion order. -/
theorem c8_filterMetricAttributes_cap (cfg : OtelConfig)
    (attrs attrs2 : List (String × MetricVal)) (al : List String) (cap : ℕ)
    (hal : cfg.metricAttributeAllowlist = some al) (hne : al ≠ [])
    (hcap : cfg.maxMetricAttributes = some (cap : ℚ)) (hpos : 0 < cap) :
    ((filterMetricAttributes cfg attrs).map Prod.fst
        = (List.insertionSort strRel
            ((attrs.map Prod.fst).filter (fun k => al.contains k))).take cap) ∧
    ((filterMetricAttributes cfg attrs).length
        = min cap ((attrs.map Prod.fst).filter (fun k => al.contains k)).length) ∧
    (∀ kv ∈ filterMetricAttributes cfg attrs, kv ∈ attrs ∧ al.contains kv.1 = true) ∧
    (attrs2.Perm attrs →
      (filterMetricAttributes cfg attrs2).map Prod.fst
        = (filterMetricAttributes cfg attrs).map Prod.fst) := by
  have hF : ∀ l : List (String × MetricVal), filterMetricAttributes cfg l
      = (List.insertionSort entryLe (l.filter (fun kv => al.contains kv.1))).take cap := by
    intro l
    simp only [filterMetricAttributes, hal, hcap]
    rw [if_pos (List.length_pos.mpr hne), if_pos (by exact_mod_cast hpos),
      ratFloor_natCast_toNat]
  have hkeys : ∀ l : List (String × MetricVal),
      (filterMetricAttributes cfg l).map Prod.fst
        = (List.insertionSort strRel
            ((l.map Prod.fst).filter (fun k => al.contains k))).take cap := by
    intro l
    rw [hF l, List.map_take, sortPairs_map_fst, map_fst_filter]
  refine ⟨hkeys attrs, ?_, ?_, ?_⟩
  · rw [hF attrs, List.length_take, List.length_insertionSort, ← map_fst_filter,
      List.length_map]
  · intro kv hkv
    rw [hF attrs] at hkv
    have hmem : kv ∈ List.insertionSort entryLe
        (attrs.filter (fun kv => al.contains kv.1)) := List.take_subset _ _ hkv
    have hmem2 : kv ∈ attrs.filter (fun kv => al.contains kv.1) :=
      (List.perm_insertionSort entryLe _).subset hmem
    have := List.mem_filter.mp hmem2
    exact ⟨this.1, this.2⟩
  · intro hperm
    rw [hkeys attrs, hkeys attrs2]
    congr 1
    haveI i3 : IsTotal String strRel := ⟨strRel_total⟩
    haveI i4 : IsTrans String strRel := ⟨strRel_trans⟩
    haveI i5 : IsAntisymm String strRel := ⟨strRel_antisymm⟩
    have hp : ((attrs2.map Prod.fst).filter (fun k => al.contains k)).Perm
        ((attrs.map Prod.fst).filter (fun k => al.contains k)) :=
      (hperm.map Prod.fst).filter _
    exact List.eq_of_perm_of_sorted
      ((List.perm_insertionSort strRel _).trans
        (hp.trans (List.perm_insertionSort strRel _).symm))
      (List.sorted_insertionSort strRel _)
      (List.sorted_insertionSort strRel _)

/-- C8 witness: ten candidate attributes, an allowlist of four, a cap of
three — exactly the three lexicographically-first allowlisted keys survive. -/
theorem c8_witness :
    metricAllow4 ≠ [] ∧ (0 : ℕ) < 3 ∧
    (filterMetricAttributes cfgMetricCap attrs10).map Prod.fst
      = ["deployment.environment", "gen_ai.operation.name", "gen_ai.request.model"] ∧
    (filterMetricAttributes cfgMetricCap attrs10).length = 3 := by
  have h := c8_filterMetricAttributes_cap cfgMetricCap attrs10 attrs10 metricAllow4 3
    rfl (by decide) (by norm_num [cfgMetricCap, baseConfig]) (by norm_num)
  refine ⟨by decide, by norm_num, ?_, ?_⟩
  · rw [h.1]
    decide
  · rw [h.2.1]
    decide

/-- Destructure a successful `Except` bind. -/
theorem exceptBind_ok {α β : Type} (m : Except String α) (f : α → Except String β) (b : β)
    (h : (m >>= f) = .ok b) : ∃ a, m = .ok a ∧ f a = .ok b := by
  cases m with
  | ok a => exact ⟨a, rfl, h⟩
  | error e => simp [Bind.bind, Except.bind] at h

/-- A successful validation pins the facts the claims dispute: the model name
was present and the duration strictly positive. -/
theorem parseEvalResult_ok_facts (raw : RawEvalResult) (v : EvalResult)
    (h : parseEvalResult raw = .ok v) :
    raw.model ≠ none ∧
    (∀ p d, raw.performance = some p → p.duration = some d → 0 < d) := by
  unfold parseEvalResult at h
  obtain ⟨id, hid, h⟩ := exceptBind_ok _ _ _ h
  obtain ⟨ts, hts, h⟩ := exceptBind_ok _ _ _ h
  obtain ⟨model, hmodel, h⟩ := exceptBind_ok _ _ _ h
  obtain ⟨operation, hop, h⟩ := exceptBind_ok _ _ _ h
  obtain ⟨u1, hu1, h⟩ := exceptBind_ok _ _ _ h
  obtain ⟨reqRaw, hreq, h⟩ := exceptBind_ok _ _ _ h
  obtain ⟨reqModel, hreqm, h⟩ := exceptBind_ok _ _ _ h
  obtain ⟨u2, hu2, h⟩ := exceptBind_ok _ _ _ h
  obtain ⟨u3, hu3, h⟩ := exceptBind_ok _ _ _ h
  obtain ⟨response, hresp, h⟩ := exceptBind_ok _ _ _ h
  obtain ⟨usage, husage, h⟩ := exceptBind_ok _ _ _ h
  obtain ⟨u4, hu4, h⟩ := exceptBind_ok _ _ _ h
  obtain ⟨u5, hu5, h⟩ := exceptBind_ok _ _ _ h
  obtain ⟨u6, hu6, h⟩ := exceptBind_ok _ _ _ h
  obtain ⟨perf, hperf, h⟩ := exceptBind_ok _ _ _ h
  obtain ⟨duration, hdur, h⟩ := exceptBind_ok _ _ _ h
  obtain ⟨u7, hu7, h⟩ := exceptBind_ok _ _ _ h
  constructor
  · intro hnone
    rw [hnone] at hmodel
    simp [requireSome] at hmodel
  · intro p d hp hd
    rw [hp] at hperf
    have hpq : p = perf := by
      have hh : (Except.ok p : Except String RawPerformance) = .ok perf := hperf
      injection hh
    rw [hpq] at hd
    rw [hd] at hdur
    have hdd : d = duration := by
      have hh : (Except.ok d : Except String ℚ) = .ok duration := hdur
      injection hh
    by_contra hneg
    rw [hdd] at hneg
    rw [if_neg hneg] at hu7
    simp at hu7

/-- C9 (counterexample): a record that validates with duration 1 is rejected
with a structured validation error when its duration is exactly 0 — the
schema requires strict positivity, so a duration of 0 is not accepted. -/
theorem c9_counterexample_duration_zero :
    (∃ v, parseEvalResult baseRawRecord = .ok v) ∧
    parseEvalResult rawDurZero
      = .error "performance.duration: Number must be greater than 0" ∧
    convertEvalResult baseConfig 0 emptyCounters rawDurZero
      = .error "performance.duration: Number must be greater than 0" :=
  ⟨⟨_, rfl⟩, rfl, rfl⟩

/-- C9 (amended): `convertEvalResult` validates before any span output is
produced — caller misuse such as a missing model name is reported as a
structured validation error — and the schema accepts only strictly positive
durations: any successful conversion implies validation succeeded and every
present duration was strictly positive (a duration of exactly 0 is
rejected; see the counterexample). -/
theorem c9_validation_gates_conversion (cfg : OtelConfig) (span : SpanId)
    (counters : Counters) (raw : RawEvalResult) :
    (raw.model = none → ∃ e, convertEvalResult cfg span counters raw = .error e) ∧
    (∀ out, convertEvalResult cfg span counters raw = .ok out →
      ∃ v, parseEvalResult raw = .ok v ∧
        (∀ p d, raw.performance = some p → p.duration = some d → 0 < d)) := by
  constructor
  · intro hnone
    cases hres : convertEvalResult cfg span counters raw with
    | error e => exact ⟨e, rfl⟩
    | ok out =>
      unfold convertEvalResult at hres
      obtain ⟨v, hv, _⟩ := exceptBind_ok _ _ _ hres
      exact absurd hnone ((parseEvalResult_ok_facts raw v hv).1)
  · intro out hres
    unfold convertEvalResult at hres
    obtain ⟨v, hv, _⟩ := exceptBind_ok _ _ _ hres
    exact ⟨v, hv, (parseEvalResult_ok_facts raw v hv).2⟩

/-- C9 witness: at the concrete fixtures — missing model name is rejected
with a structured error, and the conversion that succeeds on the valid
record implies its validation succeeded with a positive duration. -/
theorem c9_witness :
    rawNoModel.model = none ∧
    (∃ e, convertEvalResult baseConfig 0 emptyCounters rawNoModel = .error e) ∧
    (∃ v, parseEvalResult baseRawRecord = .ok v ∧
      (∀ p d, baseRawRecord.performance = some p → p.duration = some d → 0 < d)) := by
  refine ⟨rfl, (c9_validation_gates_conversion baseConfig 0 emptyCounters rawNoModel).1 rfl, ?_⟩
  have hconv : ∃ out, convertEvalResult baseConfig 0 emptyCounters baseRawRecord = .ok out :=
    ⟨_, rfl⟩
  obtain ⟨out, hout⟩ := hconv
  exact (c9_validation_gates_conversion baseConfig 0 emptyCounters baseRawRecord).2 out hout

/-- C10: when the resolved provider mode is `unknown` or not one of the seven
supported tags, `convertProviderToEvalResult` and `convertAnyProvider` return
null (`.ok none`) — no canonical record and no exception — for every payload
pair; in particular a pair no heuristic matches yields null whether the
caller passes no mode, the empty string, or `unknown`. -/
theorem c10_unknown_mode_returns_null (request response : JsVal) (st et : ℚ)
    (mode : Option String) :
    (resolveProviderMode mode request response ∉ supportedProviderTags →
      convertProviderToEvalResult request response st et mode = .ok none) ∧
    (detectProvider request response = .unknown →
      (mode = none ∨ mode = some "unknown" ∨ mode = some "") →
      convertProviderToEvalResult request response st et mode = .ok none) ∧
    (detectProvider request response = .unknown →
      ∀ p : AnyProviderPayload, p.request = request → p.response = response →
        (p.provider = none ∨ p.provider = some "unknown" ∨ p.provider = some "") →
        convertAnyProvider p = .ok none) := by
  have hmain : ∀ (st2 et2 : ℚ) (m : Option String),
      resolveProviderMode m request response ∉ supportedProviderTags →
      convertProviderToEvalResult request response st2 et2 m = .ok none := by
    intro st2 et2 m hm
    simp only [supportedProviderTags, List.mem_cons, List.not_mem_nil, or_false, not_or] at hm
    obtain ⟨h1, h2, h3, h4, h5, h6, h7⟩ := hm
    unfold convertProviderToEvalResult
    rw [if_neg h1, if_neg h2, if_neg h3, if_neg h4, if_neg h5, if_neg h6, if_neg h7]
    rfl
  have hunknown : ∀ m : Option String, resolveProviderMode m request response = "unknown" →
      resolveProviderMode m request response ∉ supportedProviderTags := by
    intro m hm
    rw [hm]
    decide
  have hresolved : detectProvider request response = .unknown →
      ∀ m : Option String, (m = none ∨ m = some "unknown" ∨ m = some "") →
        resolveProviderMode m request response = "unknown" := by
    intro hdet m hm
    rcases hm with h | h | h <;>
      simp [resolveProviderMode, h, hdet, ProviderMode.tag]
  refine ⟨hmain st et mode, ?_, ?_⟩
  · intro hdet hm
    exact hmain st et mode (hunknown mode (hresolved hdet mode hm))
  · intro hdet p hreq hresp hm
    show convertProviderToEvalResult p.request p.response p.startTime
      (p.endTime.getD (p.startTime + 1))
      (match p.provider with
        | some s => some s
        | none => some (detectProvider p.request p.response).tag) = .ok none
    rw [hreq, hresp]
    rcases hm with h | h | h <;> rw [h] <;> try rw [hdet]
    all_goals
      exact hmain p.startTime (p.endTime.getD (p.startTime + 1)) _
        (hunknown _ (by simp [resolveProviderMode, hdet, ProviderMode.tag]))

/-- C10 witness: for the empty-object payload pair no heuristic matches;
passing the mode `unknown` explicitly, dispatch returns null — `.ok none`,
not a record and not an exception. -/
theorem c10_witness :
    detectProvider payloadEmptyObj payloadEmptyObj = .unknown ∧
    resolveProviderMode (some "frobnicate") payloadEmptyObj payloadEmptyObj
      ∉ supportedProviderTags ∧
    convertProviderToEvalResult payloadEmptyObj payloadEmptyObj 1 2 (some "unknown")
      = .ok none ∧
    convertProviderToEvalResult payloadEmptyObj payloadEmptyObj 1 2 (some "frobnicate")
      = .ok none ∧
    convertAnyProvider
      { request := payloadEmptyObj, response := payloadEmptyObj
      , startTime := 1, endTime := none, provider := none } = .ok none := by
  refine ⟨by decide, by decide, ?_, ?_, ?_⟩
  · exact (c10_unknown_mode_returns_null payloadEmptyObj payloadEmptyObj 1 2
      (some "unknown")).2.1 (by decide) (Or.inr (Or.inl rfl))
  · exact (c10_unknown_mode_returns_null payloadEmptyObj payloadEmptyObj 1 2
      (some "frobnicate")).1 (by decide)
  · exact (c10_unknown_mode_returns_null payloadEmptyObj payloadEmptyObj 1 2 none).2.2
      (by decide) _ rfl rfl (Or.inl rfl)
